import Mathlib

/-!
# OpenGLTutorial: `hello-triangle.c` and `shaders.c`

A shallow embedding of the two programs of the repository.  Both programs are a
straight sequence of calls into GLFW (the window host) and OpenGL (the driver),
followed by a frame loop.  The embedding makes the environment explicit:

* every value a call hands back to the program (window pointer, loader result,
  object names, compile and link status, info logs, uniform location, and, per
  frame of the loop, the key state, the elapsed time and what the host does in
  `glfwPollEvents`) is a field of `Env`;
* every call the program issues is recorded, in order and with its arguments,
  as a `Call`; every string handed to `fputs(.., stderr)` is recorded in `err`;
* `main` returns `some run` when the C `main` returns, and `none` when the frame
  loop is still running after the last frame that `Env.frames` describes.

`float` values are denoted by the rationals their literals denote; rounding is
not modelled.  The C library function `sin` is a parameter of `Shaders.main`.
-/

namespace OpenGLTutorial

/-! ## Calls and environment -/

/-- Symbolic constants of `glad.h` and `glfw3.h` that the programs name. -/
inductive Sym
  | GLFW_CONTEXT_VERSION_MAJOR
  | GLFW_CONTEXT_VERSION_MINOR
  | GLFW_OPENGL_PROFILE
  | GLFW_OPENGL_CORE_PROFILE
  | GLFW_KEY_ESCAPE
  | GL_ARRAY_BUFFER
  | GL_STATIC_DRAW
  | GL_VERTEX_SHADER
  | GL_FRAGMENT_SHADER
  | GL_COMPILE_STATUS
  | GL_LINK_STATUS
  | GL_FLOAT
  | GL_TRIANGLES
  | GL_COLOR_BUFFER_BIT
  deriving DecidableEq, Repr

/-- The two answers of `glfwGetKey`. -/
inductive KeyState
  | GLFW_RELEASE
  | GLFW_PRESS
  deriving DecidableEq, Repr

/-- One call into GLFW, GLAD or OpenGL, with the arguments the program passes.
Out-parameters are not part of the call; their values come from `Env`. -/
inductive Call
  | glfwInit
  | glfwWindowHint (hint : Sym) (value : Int ⊕ Sym)
  | glfwCreateWindow (width height : Int) (title : String)
  | glfwMakeContextCurrent (win : Nat)
  | gladLoadGLLoader
  | glViewport (x y w h : Int)
  | glfwSetFramebufferSizeCallback (win : Nat)
  | glGenBuffers (n : Int)
  | glBindBuffer (target : Sym) (buffer : Nat)
  | glBufferData (target : Sym) (size : Nat) (data : List ℚ) (usage : Sym)
  | glGenVertexArrays (n : Int)
  | glBindVertexArray (array : Nat)
  | glCreateShader (kind : Sym)
  | glShaderSource (shader : Nat) (count : Int) (source : String)
  | glCompileShader (shader : Nat)
  | glGetShaderiv (shader : Nat) (pname : Sym)
  | glGetShaderInfoLog (shader : Nat) (bufSize : Nat)
  | glCreateProgram
  | glAttachShader (program shader : Nat)
  | glLinkProgram (program : Nat)
  | glGetProgramiv (program : Nat) (pname : Sym)
  | glGetProgramInfoLog (program : Nat) (bufSize : Nat)
  | glDeleteShader (shader : Nat)
  | glUseProgram (program : Nat)
  | glVertexAttribPointer (index : Nat) (size : Int) (kind : Sym) (normalized : Bool)
      (stride : Nat) (pointer : Nat)
  | glEnableVertexAttribArray (index : Nat)
  | glGetUniformLocation (program : Nat) (name : String)
  | glfwWindowShouldClose (win : Nat)
  | glfwGetTime
  | glUniform4f (location : Int) (v0 v1 v2 v3 : ℚ)
  | glClearColor (r g b a : ℚ)
  | glClear (mask : Sym)
  | glfwGetKey (win : Nat) (key : Sym)
  | glfwSetWindowShouldClose (win : Nat) (value : Bool)
  | glfwPollEvents
  | glDrawArrays (mode : Sym) (first count : Int)
  | glfwSwapBuffers (win : Nat)
  | glfwTerminate
  deriving DecidableEq

/-- What the host does during one iteration of the frame loop. -/
structure HostFrame where
  /-- Value returned by `glfwGetTime()` (read by `shaders.c` only). -/
  time : ℚ
  /-- Value returned by `glfwGetKey(win, GLFW_KEY_ESCAPE)`. -/
  key : KeyState
  /-- Whether the host raises the window's close flag while `glfwPollEvents` runs. -/
  close : Bool
  /-- Framebuffer resizes delivered to the registered callback while `glfwPollEvents` runs. -/
  resizes : List (Int × Int)

/-- Everything the host and the driver hand back to one run of a program. -/
structure Env where
  /-- Result of `glfwCreateWindow`; `0` is `NULL`. -/
  win : Nat
  /-- Result of `gladLoadGLLoader`. -/
  glad : Int
  /-- Name written by `glGenBuffers`. -/
  VBO : Nat
  /-- Name written by `glGenVertexArrays`. -/
  VAO : Nat
  /-- Result of `glCreateShader(GL_VERTEX_SHADER)`. -/
  vertex_shader : Nat
  /-- Value `glGetShaderiv` writes for the vertex unit; `none` when it writes nothing. -/
  vertex_status : Option Int
  /-- Info log the driver holds for the vertex unit; `none` when `glGetShaderInfoLog`
  is rejected and writes nothing. -/
  vertex_log : Option (List Char)
  /-- Result of `glCreateShader(GL_FRAGMENT_SHADER)`. -/
  fragment_shader : Nat
  /-- Value `glGetShaderiv` writes for the fragment unit; `none` when it writes nothing. -/
  fragment_status : Option Int
  /-- Info log the driver holds for the fragment unit. -/
  fragment_log : Option (List Char)
  /-- Result of `glCreateProgram`. -/
  shader_program : Nat
  /-- Value `glGetProgramiv` writes for the program; `none` when it writes nothing. -/
  link_status : Option Int
  /-- Info log the driver holds for the program. -/
  link_log : Option (List Char)
  /-- Result of `glGetUniformLocation` (`shaders.c` only). -/
  vertex_color_location : Int
  /-- Indeterminate content of the uninitialised local `time_value` (`shaders.c` only). -/
  time_value : ℚ
  /-- Host behaviour for the successive iterations of the frame loop. -/
  frames : List HostFrame

/-- Result of a run of `main` that returns. -/
structure Run where
  /-- Calls issued, oldest first. -/
  calls : List Call
  /-- Strings written with `fputs(.., stderr)`, oldest first. -/
  err : List (List Char)
  /-- Value returned by `main`. -/
  code : Int

/-! ## C strings and the info-log buffer -/

/-- The terminator of a C string. -/
def NUL : Char := Char.ofNat 0

/-- The C string stored in a `char` array: the characters before the first terminator. -/
def cstr (buf : List Char) : List Char :=
  buf.takeWhile (fun c => c ≠ NUL)

/-- The array `char compile_info[512] = {'\n'}` (and likewise `link_info`): a newline
followed by 511 zero bytes. -/
def info_buffer : List Char :=
  '\n' :: List.replicate 511 NUL

/-- Driver side of `glGetShaderInfoLog(obj, bufSize, NULL, buf)` and of
`glGetProgramInfoLog`: when the call is accepted, at most `bufSize - 1` characters of
the log are stored at the start of `buf`, followed by a terminator; when it is rejected
(`none`) the buffer is left as it was. -/
def glGetInfoLog (bufSize : Nat) (log : Option (List Char)) (buf : List Char) : List Char :=
  match log with
  | none => buf
  | some l =>
    let written := l.take (bufSize - 1) ++ [NUL]
    written ++ buf.drop written.length

/-! ## Functions shared verbatim by both source files -/

def WIN_WIDTH : Int := 800

def WIN_HEIGHT : Int := 600

/-- The value of `sizeof(float)`. -/
def sizeof_float : Nat := 4

/-- Body of `framebuffer_size_callback(win, w, h)`. -/
def framebuffer_size_callback (w h : Int) : List Call :=
  [Call.glViewport 0 0 w h]

/-- Function `process_input(win)`: the calls it issues and the close flag of the window
afterwards, given the flag before and the answer of `glfwGetKey`. -/
def process_input (win : Nat) (key : KeyState) (shouldClose : Bool) : List Call × Bool :=
  if key = KeyState.GLFW_PRESS then
    ([Call.glfwGetKey win Sym.GLFW_KEY_ESCAPE, Call.glfwSetWindowShouldClose win true], true)
  else
    ([Call.glfwGetKey win Sym.GLFW_KEY_ESCAPE], shouldClose)

/-- Host side of `glfwPollEvents()`: the call, the callbacks run during it, and the close
flag afterwards. -/
def glfwPollEvents (h : HostFrame) (shouldClose : Bool) : List Call × Bool :=
  (Call.glfwPollEvents :: h.resizes.flatMap (fun p => framebuffer_size_callback p.1 p.2),
   shouldClose || h.close)

/-- Function `check_shader_compilation_failure(shader)`: the calls it issues and the
strings it writes to `stderr`.  `status` and `log` are the driver's answers. -/
def check_shader_compilation_failure (shader : Nat) (status : Option Int)
    (log : Option (List Char)) : List Call × List (List Char) :=
  let compiled : Int := status.getD 0
  let compile_info := info_buffer
  if compiled = 0 then
    let compile_info := glGetInfoLog 512 log compile_info
    ([Call.glGetShaderiv shader Sym.GL_COMPILE_STATUS, Call.glGetShaderInfoLog shader 512],
     ["COMPILING ERROR:".toList, cstr compile_info])
  else
    ([Call.glGetShaderiv shader Sym.GL_COMPILE_STATUS], [])

/-- Function `check_shader_linking_failure(program)`: the calls it issues and the strings
it writes to `stderr`.  `status` and `log` are the driver's answers. -/
def check_shader_linking_failure (program : Nat) (status : Option Int)
    (log : Option (List Char)) : List Call × List (List Char) :=
  let linked : Int := status.getD 0
  let link_info := info_buffer
  if linked = 0 then
    let link_info := glGetInfoLog 512 log link_info
    ([Call.glGetProgramiv program Sym.GL_LINK_STATUS, Call.glGetProgramInfoLog program 512],
     ["LINKING ERROR:".toList, cstr link_info])
  else
    ([Call.glGetProgramiv program Sym.GL_LINK_STATUS], [])

/-- Calls of `main` up to and including `glfwCreateWindow` (identical in both files). -/
def window_calls : List Call :=
  [Call.glfwInit,
   Call.glfwWindowHint Sym.GLFW_CONTEXT_VERSION_MAJOR (Sum.inl 3),
   Call.glfwWindowHint Sym.GLFW_CONTEXT_VERSION_MINOR (Sum.inl 3),
   Call.glfwWindowHint Sym.GLFW_OPENGL_PROFILE (Sum.inr Sym.GLFW_OPENGL_CORE_PROFILE),
   Call.glfwCreateWindow WIN_WIDTH WIN_HEIGHT "First OpenGL program"]

/-! ## `hello-triangle.c` -/

namespace HelloTriangle

/-- The array `vertices` of `hello-triangle.c`. -/
def vertices : List ℚ :=
  [-0.5, -0.5, 0.0,
   0.5, -0.5, 0.0,
   0.0, 0.5, 0.0]

def vertex_shader_source : String :=
  "#version 330 core\nlayout (location = 0) in vec3 aPos;\nvoid main()\n\x7b\n   gl_Position = vec4(aPos.x, aPos.y, aPos.z, 1.0);\n\x7d"

def fragment_shader_source : String :=
  "#version 330 core\nout vec4 FragColor;\n\nvoid main()\n\x7b\nFragColor = vec4(1.0f, 0.5f, 0.2f, 1.0f);\n\x7d"

/-- Body of the `while` loop of `main`: the calls of one iteration and the close flag
at its end. -/
def frame_body (win : Nat) (h : HostFrame) (shouldClose : Bool) : List Call × Bool :=
  let input := process_input win h.key shouldClose
  let poll := glfwPollEvents h input.2
  ([Call.glClearColor 0.2 0.3 0.3 1.0, Call.glClear Sym.GL_COLOR_BUFFER_BIT]
     ++ input.1 ++ poll.1
     ++ [Call.glDrawArrays Sym.GL_TRIANGLES 0 3, Call.glfwSwapBuffers win],
   poll.2)

/-- The loop `while (!glfwWindowShouldClose(win)) { .. }` of `main`, started with the
given close flag: `some calls` when the loop is left, `none` when it is still running
after the described frames. -/
def frame_loop (win : Nat) : Bool → List HostFrame → Option (List Call)
  | true, _ => some [Call.glfwWindowShouldClose win]
  | false, [] => none
  | false, h :: hs =>
    let body := frame_body win h false
    (frame_loop win body.2 hs).map
      (fun rest => Call.glfwWindowShouldClose win :: (body.1 ++ rest))

/-- Function `main` of `hello-triangle.c`. -/
def main (e : Env) : Option Run :=
  let c0 := window_calls
  if e.win = 0 then
    some ⟨c0, ["Failed to create GLFW window".toList], 1⟩
  else
  let c1 := c0 ++ [Call.glfwMakeContextCurrent e.win, Call.gladLoadGLLoader]
  if e.glad = 0 then
    some ⟨c1, ["Failed to initialize GLAD".toList], 1⟩
  else
  let c2 := c1 ++
    [Call.glViewport 0 0 WIN_WIDTH WIN_HEIGHT,
     Call.glfwSetFramebufferSizeCallback e.win,
     Call.glGenBuffers 1,
     Call.glBindBuffer Sym.GL_ARRAY_BUFFER e.VBO,
     Call.glBufferData Sym.GL_ARRAY_BUFFER (vertices.length * sizeof_float) vertices
       Sym.GL_STATIC_DRAW,
     Call.glGenVertexArrays 1,
     Call.glBindVertexArray e.VAO,
     Call.glCreateShader Sym.GL_VERTEX_SHADER,
     Call.glShaderSource e.vertex_shader 1 vertex_shader_source,
     Call.glCompileShader e.vertex_shader]
  let vcheck := check_shader_compilation_failure e.vertex_shader e.vertex_status e.vertex_log
  let c3 := c2 ++ vcheck.1 ++
    [Call.glCreateShader Sym.GL_FRAGMENT_SHADER,
     Call.glShaderSource e.fragment_shader 1 fragment_shader_source,
     Call.glCompileShader e.fragment_shader]
  let fcheck :=
    check_shader_compilation_failure e.fragment_shader e.fragment_status e.fragment_log
  let c4 := c3 ++ fcheck.1 ++ [Call.glCreateProgram]
  let err4 := vcheck.2 ++ fcheck.2
  if e.shader_program = 0 then
    some ⟨c4, err4 ++ ["Failed to create program".toList], 1⟩
  else
  let lcheck := check_shader_linking_failure e.shader_program e.link_status e.link_log
  let c5 := c4 ++
    [Call.glAttachShader e.shader_program e.vertex_shader,
     Call.glAttachShader e.shader_program e.fragment_shader,
     Call.glLinkProgram e.shader_program]
    ++ lcheck.1 ++
    [Call.glDeleteShader e.vertex_shader,
     Call.glDeleteShader e.fragment_shader,
     Call.glUseProgram e.shader_program,
     Call.glVertexAttribPointer 0 3 Sym.GL_FLOAT false (3 * sizeof_float) 0,
     Call.glEnableVertexAttribArray 0]
  let err5 := err4 ++ lcheck.2
  match frame_loop e.win false e.frames with
  | none => none
  | some loop => some ⟨c5 ++ loop ++ [Call.glfwTerminate], err5, 0⟩

end HelloTriangle

/-! ## `shaders.c` -/

namespace Shaders

/-- The array `vertices` of `shaders.c`: per vertex a position and a colour. -/
def vertices : List ℚ :=
  [0.5, -0.5, 0.0, 1.0, 0.0, 0.0,
   -0.5, -0.5, 0.0, 0.0, 1.0, 0.0,
   0.0, 0.5, 0.0, 0.0, 0.0, 1.0]

def vertex_shader_source : String :=
  "#version 330 core\nlayout (location = 0) in vec3 aPos;   // the position variable has attribute position 0\nlayout (location = 1) in vec3 aColor; // the color variable has attribute position 1\nout vec3 ourColor; // output a color to the fragment shader\nvoid main()\n\x7b\ngl_Position = vec4(aPos, 1.0);\nourColor = aColor; // set ourColor to the input color we got from the vertex data\n\x7d\n"

def fragment_shader_source : String :=
  "#version 330 core\nout vec4 FragColor;  \nin vec3 ourColor;\nvoid main()\n\x7b\nFragColor = vec4(ourColor, 1.0);\n\x7d\n"

/-- Body of the `while` loop of `main`: the calls of one iteration, the close flag at
its end, and the content of `time_value` at its end.  `green_value` is computed from
the content of `time_value` at the start of the iteration; `time_value` is assigned
from `glfwGetTime()` afterwards. -/
def frame_body (sin : ℚ → ℚ) (win : Nat) (vertex_color_location : Int) (h : HostFrame)
    (shouldClose : Bool) (time_value : ℚ) : List Call × Bool × ℚ :=
  let green_value := (sin time_value / 2.0) + 0.5
  let time_value := h.time
  let input := process_input win h.key shouldClose
  let poll := glfwPollEvents h input.2
  ([Call.glfwGetTime,
    Call.glUniform4f vertex_color_location 0.0 green_value 0.0 1.0,
    Call.glClearColor 0.2 0.3 0.3 1.0, Call.glClear Sym.GL_COLOR_BUFFER_BIT]
     ++ input.1 ++ poll.1
     ++ [Call.glDrawArrays Sym.GL_TRIANGLES 0 6, Call.glfwSwapBuffers win],
   poll.2, time_value)

/-- The loop `while (!glfwWindowShouldClose(win)) { .. }` of `main`, started with the
given close flag and content of `time_value`. -/
def frame_loop (sin : ℚ → ℚ) (win : Nat) (vertex_color_location : Int) :
    Bool → ℚ → List HostFrame → Option (List Call)
  | true, _, _ => some [Call.glfwWindowShouldClose win]
  | false, _, [] => none
  | false, time_value, h :: hs =>
    let body := frame_body sin win vertex_color_location h false time_value
    (frame_loop sin win vertex_color_location body.2.1 body.2.2 hs).map
      (fun rest => Call.glfwWindowShouldClose win :: (body.1 ++ rest))

/-- Function `main` of `shaders.c`; `sin` is the C library function. -/
def main (sin : ℚ → ℚ) (e : Env) : Option Run :=
  let c0 := window_calls
  if e.win = 0 then
    some ⟨c0, ["Failed to create GLFW window".toList], 1⟩
  else
  let c1 := c0 ++ [Call.glfwMakeContextCurrent e.win, Call.gladLoadGLLoader]
  if e.glad = 0 then
    some ⟨c1, ["Failed to initialize GLAD".toList], 1⟩
  else
  let c2 := c1 ++
    [Call.glViewport 0 0 WIN_WIDTH WIN_HEIGHT,
     Call.glfwSetFramebufferSizeCallback e.win,
     Call.glGenBuffers 1,
     Call.glBindBuffer Sym.GL_ARRAY_BUFFER e.VBO,
     Call.glBufferData Sym.GL_ARRAY_BUFFER (vertices.length * sizeof_float) vertices
       Sym.GL_STATIC_DRAW,
     Call.glGenVertexArrays 1,
     Call.glBindVertexArray e.VAO,
     Call.glCreateShader Sym.GL_VERTEX_SHADER,
     Call.glShaderSource e.vertex_shader 1 vertex_shader_source,
     Call.glCompileShader e.vertex_shader]
  let vcheck := check_shader_compilation_failure e.vertex_shader e.vertex_status e.vertex_log
  let c3 := c2 ++ vcheck.1 ++
    [Call.glCreateShader Sym.GL_FRAGMENT_SHADER,
     Call.glShaderSource e.fragment_shader 1 fragment_shader_source,
     Call.glCompileShader e.fragment_shader]
  let fcheck :=
    check_shader_compilation_failure e.fragment_shader e.fragment_status e.fragment_log
  let c4 := c3 ++ fcheck.1 ++ [Call.glCreateProgram]
  let err4 := vcheck.2 ++ fcheck.2
  if e.shader_program = 0 then
    some ⟨c4, err4 ++ ["Failed to create program".toList], 1⟩
  else
  let lcheck := check_shader_linking_failure e.shader_program e.link_status e.link_log
  let c5 := c4 ++
    [Call.glAttachShader e.shader_program e.vertex_shader,
     Call.glAttachShader e.shader_program e.fragment_shader,
     Call.glLinkProgram e.shader_program]
    ++ lcheck.1 ++
    [Call.glDeleteShader e.vertex_shader,
     Call.glDeleteShader e.fragment_shader,
     Call.glUseProgram e.shader_program,
     Call.glVertexAttribPointer 0 3 Sym.GL_FLOAT false (6 * sizeof_float) 0,
     Call.glEnableVertexAttribArray 0,
     Call.glVertexAttribPointer 1 3 Sym.GL_FLOAT false (6 * sizeof_float) (3 * sizeof_float),
     Call.glEnableVertexAttribArray 1,
     Call.glGetUniformLocation e.shader_program "ourColor"]
  let err5 := err4 ++ lcheck.2
  match frame_loop sin e.win e.vertex_color_location false e.time_value e.frames with
  | none => none
  | some loop => some ⟨c5 ++ loop ++ [Call.glfwTerminate], err5, 0⟩

end Shaders

/-! ## Observations on runs, used to state the properties -/

/-- Startup-fatal answers: the window pointer is `NULL`, the loader returns 0, or the
program name is 0. -/
def startup_fails (e : Env) : Prop :=
  e.win = 0 ∨ e.glad = 0 ∨ e.shader_program = 0

instance (e : Env) : Decidable (startup_fails e) := by
  unfold startup_fails
  infer_instance

/-- A frame at whose end the close flag of the window is set: escape was reported
pressed, or the host raised the flag during `glfwPollEvents`. -/
def HostFrame.raises (h : HostFrame) : Bool :=
  decide (h.key = KeyState.GLFW_PRESS) || h.close

/-- The frames of a host behaviour that the loop executes: all frames up to and including
the first one that raises the close flag. -/
def executed : List HostFrame → List HostFrame
  | [] => []
  | h :: hs => if h.raises then [h] else h :: executed hs

/-- The status value the check functions test, `0` meaning failure. -/
def status_false (status : Option Int) : Prop :=
  status.getD 0 = 0

instance (status : Option Int) : Decidable (status_false status) := by
  unfold status_false
  infer_instance

/-- Calls that retrieve an info log. -/
def Call.isInfoLog : Call → Bool
  | Call.glGetShaderInfoLog _ _ => true
  | Call.glGetProgramInfoLog _ _ => true
  | _ => false

/-- Window queried by a loop check. -/
def Call.loopCheck? : Call → Option Nat
  | Call.glfwWindowShouldClose win => some win
  | _ => none

/-- The loop checks of a trace, in order. -/
def loop_checks (cs : List Call) : List Nat :=
  cs.filterMap Call.loopCheck?

/-- Program and name of a uniform-location query. -/
def Call.uniformLocation? : Call → Option (Nat × String)
  | Call.glGetUniformLocation program name => some (program, name)
  | _ => none

/-- The uniform-location queries of a trace, in order. -/
def uniform_queries (cs : List Call) : List (Nat × String) :=
  cs.filterMap Call.uniformLocation?

/-- Mode, first vertex and count of a draw call. -/
def Call.draw? : Call → Option (Sym × Int × Int)
  | Call.glDrawArrays mode first count => some (mode, first, count)
  | _ => none

/-- Byte size and content of a buffer upload. -/
def Call.upload? : Call → Option (Nat × List ℚ)
  | Call.glBufferData _ size data _ => some (size, data)
  | _ => none

/-- Slot, component count, component type, normalized flag, stride in bytes and offset in
bytes of an attribute layout declaration. -/
def Call.layout? : Call → Option (Nat × Int × Sym × Bool × Nat × Nat)
  | Call.glVertexAttribPointer index size kind normalized stride pointer =>
    some (index, size, kind, normalized, stride, pointer)
  | _ => none

/-- Slot of an attribute enable. -/
def Call.enable? : Call → Option Nat
  | Call.glEnableVertexAttribArray index => some index
  | _ => none

/-- Location and green channel of a uniform-set call. -/
def Call.uniform? : Call → Option (Int × ℚ)
  | Call.glUniform4f location _ v1 _ _ => some (location, v1)
  | _ => none

/-- Value passed by a call that sets the close flag of the window. -/
def Call.setClose? : Call → Option Bool
  | Call.glfwSetWindowShouldClose _ value => some value
  | _ => none

/-- Values passed by the calls of a trace that set the close flag, in order. -/
def close_sets (cs : List Call) : List Bool :=
  cs.filterMap Call.setClose?

/-- Calls to `glfwTerminate`, as an observation. -/
def Call.terminate? : Call → Option Unit
  | Call.glfwTerminate => some ()
  | _ => none

/-- The calls to `glfwTerminate` of a trace. -/
def terminations (cs : List Call) : List Unit :=
  cs.filterMap Call.terminate?

/-- Mode, first vertex and count of the draw calls of a trace, in order. -/
def draws (cs : List Call) : List (Sym × Int × Int) :=
  cs.filterMap Call.draw?

/-- Byte size and content of the buffer uploads of a trace, in order. -/
def uploads (cs : List Call) : List (Nat × List ℚ) :=
  cs.filterMap Call.upload?

/-- The attribute layouts declared in a trace, in order. -/
def layouts (cs : List Call) : List (Nat × Int × Sym × Bool × Nat × Nat) :=
  cs.filterMap Call.layout?

/-- The attribute slots enabled in a trace, in order. -/
def enabled (cs : List Call) : List Nat :=
  cs.filterMap Call.enable?

/-- Location and green channel of the uniform-set calls of a trace, in order. -/
def uniform_sets (cs : List Call) : List (Int × ℚ) :=
  cs.filterMap Call.uniform?

/-- The answers in which both compile checks and the link check see success. -/
def Env.allOk (e : Env) : Env :=
  { e with vertex_status := some 1, fragment_status := some 1, link_status := some 1 }

/-- The diagnostics of a run: for each failed check, in program order, its heading and
the log string read back from the buffer. -/
def diagnostics (e : Env) : List (List Char) :=
  (if status_false e.vertex_status then
      ["COMPILING ERROR:".toList, cstr (glGetInfoLog 512 e.vertex_log info_buffer)] else [])
  ++ (if status_false e.fragment_status then
      ["COMPILING ERROR:".toList, cstr (glGetInfoLog 512 e.fragment_log info_buffer)] else [])
  ++ (if status_false e.link_status then
      ["LINKING ERROR:".toList, cstr (glGetInfoLog 512 e.link_log info_buffer)] else [])

/-- The loop bodies that `shaders.c` runs on the given frames, the first one started with
the given content of `time_value`. -/
def Shaders.bodies (sin : ℚ → ℚ) (win : Nat) (location : Int) :
    ℚ → List HostFrame → List (List Call)
  | _, [] => []
  | time_value, h :: hs =>
    (Shaders.frame_body sin win location h false time_value).1
      :: Shaders.bodies sin win location h.time hs

/-- The calls `main` of `hello-triangle.c` issues before its loop when startup succeeds. -/
def HelloTriangle.setup (e : Env) : List Call :=
  window_calls ++ [Call.glfwMakeContextCurrent e.win, Call.gladLoadGLLoader] ++
    [Call.glViewport 0 0 WIN_WIDTH WIN_HEIGHT,
     Call.glfwSetFramebufferSizeCallback e.win,
     Call.glGenBuffers 1,
     Call.glBindBuffer Sym.GL_ARRAY_BUFFER e.VBO,
     Call.glBufferData Sym.GL_ARRAY_BUFFER (HelloTriangle.vertices.length * sizeof_float)
       HelloTriangle.vertices Sym.GL_STATIC_DRAW,
     Call.glGenVertexArrays 1,
     Call.glBindVertexArray e.VAO,
     Call.glCreateShader Sym.GL_VERTEX_SHADER,
     Call.glShaderSource e.vertex_shader 1 HelloTriangle.vertex_shader_source,
     Call.glCompileShader e.vertex_shader]
    ++ (check_shader_compilation_failure e.vertex_shader e.vertex_status e.vertex_log).1 ++
    [Call.glCreateShader Sym.GL_FRAGMENT_SHADER,
     Call.glShaderSource e.fragment_shader 1 HelloTriangle.fragment_shader_source,
     Call.glCompileShader e.fragment_shader]
    ++ (check_shader_compilation_failure e.fragment_shader e.fragment_status
          e.fragment_log).1 ++
    [Call.glCreateProgram,
     Call.glAttachShader e.shader_program e.vertex_shader,
     Call.glAttachShader e.shader_program e.fragment_shader,
     Call.glLinkProgram e.shader_program]
    ++ (check_shader_linking_failure e.shader_program e.link_status e.link_log).1 ++
    [Call.glDeleteShader e.vertex_shader,
     Call.glDeleteShader e.fragment_shader,
     Call.glUseProgram e.shader_program,
     Call.glVertexAttribPointer 0 3 Sym.GL_FLOAT false (3 * sizeof_float) 0,
     Call.glEnableVertexAttribArray 0]

/-- The calls `main` of `shaders.c` issues before its loop when startup succeeds. -/
def Shaders.setup (e : Env) : List Call :=
  window_calls ++ [Call.glfwMakeContextCurrent e.win, Call.gladLoadGLLoader] ++
    [Call.glViewport 0 0 WIN_WIDTH WIN_HEIGHT,
     Call.glfwSetFramebufferSizeCallback e.win,
     Call.glGenBuffers 1,
     Call.glBindBuffer Sym.GL_ARRAY_BUFFER e.VBO,
     Call.glBufferData Sym.GL_ARRAY_BUFFER (Shaders.vertices.length * sizeof_float)
       Shaders.vertices Sym.GL_STATIC_DRAW,
     Call.glGenVertexArrays 1,
     Call.glBindVertexArray e.VAO,
     Call.glCreateShader Sym.GL_VERTEX_SHADER,
     Call.glShaderSource e.vertex_shader 1 Shaders.vertex_shader_source,
     Call.glCompileShader e.vertex_shader]
    ++ (check_shader_compilation_failure e.vertex_shader e.vertex_status e.vertex_log).1 ++
    [Call.glCreateShader Sym.GL_FRAGMENT_SHADER,
     Call.glShaderSource e.fragment_shader 1 Shaders.fragment_shader_source,
     Call.glCompileShader e.fragment_shader]
    ++ (check_shader_compilation_failure e.fragment_shader e.fragment_status
          e.fragment_log).1 ++
    [Call.glCreateProgram,
     Call.glAttachShader e.shader_program e.vertex_shader,
     Call.glAttachShader e.shader_program e.fragment_shader,
     Call.glLinkProgram e.shader_program]
    ++ (check_shader_linking_failure e.shader_program e.link_status e.link_log).1 ++
    [Call.glDeleteShader e.vertex_shader,
     Call.glDeleteShader e.fragment_shader,
     Call.glUseProgram e.shader_program,
     Call.glVertexAttribPointer 0 3 Sym.GL_FLOAT false (6 * sizeof_float) 0,
     Call.glEnableVertexAttribArray 0,
     Call.glVertexAttribPointer 1 3 Sym.GL_FLOAT false (6 * sizeof_float) (3 * sizeof_float),
     Call.glEnableVertexAttribArray 1,
     Call.glGetUniformLocation e.shader_program "ourColor"]

/-- The calls `main` of `hello-triangle.c` issues before `glCreateProgram` when window
creation and function loading succeed. -/
def HelloTriangle.compile_phase (e : Env) : List Call :=
  window_calls ++ [Call.glfwMakeContextCurrent e.win, Call.gladLoadGLLoader] ++
    [Call.glViewport 0 0 WIN_WIDTH WIN_HEIGHT,
     Call.glfwSetFramebufferSizeCallback e.win,
     Call.glGenBuffers 1,
     Call.glBindBuffer Sym.GL_ARRAY_BUFFER e.VBO,
     Call.glBufferData Sym.GL_ARRAY_BUFFER (HelloTriangle.vertices.length * sizeof_float)
       HelloTriangle.vertices Sym.GL_STATIC_DRAW,
     Call.glGenVertexArrays 1,
     Call.glBindVertexArray e.VAO,
     Call.glCreateShader Sym.GL_VERTEX_SHADER,
     Call.glShaderSource e.vertex_shader 1 HelloTriangle.vertex_shader_source,
     Call.glCompileShader e.vertex_shader]
    ++ (check_shader_compilation_failure e.vertex_shader e.vertex_status e.vertex_log).1 ++
    [Call.glCreateShader Sym.GL_FRAGMENT_SHADER,
     Call.glShaderSource e.fragment_shader 1 HelloTriangle.fragment_shader_source,
     Call.glCompileShader e.fragment_shader]
    ++ (check_shader_compilation_failure e.fragment_shader e.fragment_status
          e.fragment_log).1

/-- The calls `main` of `shaders.c` issues before `glCreateProgram` when window creation
and function loading succeed. -/
def Shaders.compile_phase (e : Env) : List Call :=
  window_calls ++ [Call.glfwMakeContextCurrent e.win, Call.gladLoadGLLoader] ++
    [Call.glViewport 0 0 WIN_WIDTH WIN_HEIGHT,
     Call.glfwSetFramebufferSizeCallback e.win,
     Call.glGenBuffers 1,
     Call.glBindBuffer Sym.GL_ARRAY_BUFFER e.VBO,
     Call.glBufferData Sym.GL_ARRAY_BUFFER (Shaders.vertices.length * sizeof_float)
       Shaders.vertices Sym.GL_STATIC_DRAW,
     Call.glGenVertexArrays 1,
     Call.glBindVertexArray e.VAO,
     Call.glCreateShader Sym.GL_VERTEX_SHADER,
     Call.glShaderSource e.vertex_shader 1 Shaders.vertex_shader_source,
     Call.glCompileShader e.vertex_shader]
    ++ (check_shader_compilation_failure e.vertex_shader e.vertex_status e.vertex_log).1 ++
    [Call.glCreateShader Sym.GL_FRAGMENT_SHADER,
     Call.glShaderSource e.fragment_shader 1 Shaders.fragment_shader_source,
     Call.glCompileShader e.fragment_shader]
    ++ (check_shader_compilation_failure e.fragment_shader e.fragment_status
          e.fragment_log).1

/-- The calls of the link phase, from `glCreateProgram` to `glUseProgram` (the same text in
both files). -/
def link_phase (e : Env) : List Call :=
  [Call.glCreateProgram,
   Call.glAttachShader e.shader_program e.vertex_shader,
   Call.glAttachShader e.shader_program e.fragment_shader,
   Call.glLinkProgram e.shader_program,
   Call.glGetProgramiv e.shader_program Sym.GL_LINK_STATUS]
  ++ (if status_false e.link_status then
        [Call.glGetProgramInfoLog e.shader_program 512] else [])
  ++ [Call.glDeleteShader e.vertex_shader,
      Call.glDeleteShader e.fragment_shader,
      Call.glUseProgram e.shader_program]

/-- A frame in which nothing happens, at elapsed time 1. -/
def demo_idle : HostFrame :=
  { time := 1, key := KeyState.GLFW_RELEASE, close := false, resizes := [] }

/-- A frame in which escape is reported pressed and the framebuffer is resized, at
elapsed time 2. -/
def demo_escape : HostFrame :=
  { time := 2, key := KeyState.GLFW_PRESS, close := false, resizes := [(640, 480)] }

/-- A frame the loop never reaches, at elapsed time 3. -/
def demo_late : HostFrame :=
  { time := 3, key := KeyState.GLFW_RELEASE, close := false, resizes := [] }

/-- A host behaviour of three frames: escape is reported pressed in the second one. -/
def demo_frames : List HostFrame :=
  [demo_idle, demo_escape, demo_late]

/-- Answers of a run in which startup succeeds, the vertex unit compiles, the fragment
unit does not, and the link fails. -/
def demo_env : Env :=
  { win := 1, glad := 1, VBO := 1, VAO := 1,
    vertex_shader := 1, vertex_status := some 1, vertex_log := some [],
    fragment_shader := 2, fragment_status := some 0,
    fragment_log := some "0(6) : error C0000: syntax error".toList,
    shader_program := 3, link_status := some 0,
    link_log := some "Fragment info: shader not compiled".toList,
    vertex_color_location := -1, time_value := 7, frames := demo_frames }

/-- Answers of a run in which program-object creation fails. -/
def demo_env_no_program : Env :=
  { demo_env with shader_program := 0 }

/-! ## Lemmas on the frame loops and on the shape of a run -/

theorem executed_ne_nil_any : ∀ hs : List HostFrame, hs.any HostFrame.raises = true →
    executed hs ≠ [] := by
  intro hs h
  cases hs with
  | nil => simp at h
  | cons a t =>
    simp only [executed]
    split <;> simp

theorem hello_frame_body_flag (win : Nat) (h : HostFrame) :
    (HelloTriangle.frame_body win h false).2 = h.raises := by
  simp only [HelloTriangle.frame_body, process_input, glfwPollEvents, HostFrame.raises]
  split <;> simp_all

theorem hello_frame_loop_false (win : Nat) : ∀ hs : List HostFrame,
    HelloTriangle.frame_loop win false hs =
      if hs.any HostFrame.raises then
        some ((executed hs).flatMap
            (fun h => Call.glfwWindowShouldClose win :: (HelloTriangle.frame_body win h false).1)
          ++ [Call.glfwWindowShouldClose win])
      else none := by
  intro hs
  induction hs with
  | nil => simp [HelloTriangle.frame_loop]
  | cons h t ih =>
    simp only [HelloTriangle.frame_loop, hello_frame_body_flag, List.any_cons, executed]
    cases hr : h.raises with
    | true => cases t <;> simp [HelloTriangle.frame_loop]
    | false =>
      rw [ih]
      by_cases ht : t.any HostFrame.raises = true <;> simp [ht]

theorem shaders_frame_body_flag (sin : ℚ → ℚ) (win : Nat) (loc : Int) (h : HostFrame) (tv : ℚ) :
    (Shaders.frame_body sin win loc h false tv).2 = (h.raises, h.time) := by
  simp only [Shaders.frame_body, process_input, glfwPollEvents, HostFrame.raises]
  split <;> simp_all

theorem shaders_frame_loop_false (sin : ℚ → ℚ) (win : Nat) (loc : Int) :
    ∀ (hs : List HostFrame) (tv : ℚ),
    Shaders.frame_loop sin win loc false tv hs =
      if hs.any HostFrame.raises then
        some ((Shaders.bodies sin win loc tv (executed hs)).flatMap
            (fun b => Call.glfwWindowShouldClose win :: b)
          ++ [Call.glfwWindowShouldClose win])
      else none := by
  intro hs
  induction hs with
  | nil => intro tv; simp [Shaders.frame_loop]
  | cons h t ih =>
    intro tv
    simp only [Shaders.frame_loop, shaders_frame_body_flag, List.any_cons, executed]
    cases hr : h.raises with
    | true => cases t <;> simp [Shaders.frame_loop, Shaders.bodies]
    | false =>
      rw [ih]
      by_cases ht : t.any HostFrame.raises = true <;> simp [ht, Shaders.bodies]

theorem check_compile_err (shader : Nat) (status : Option Int) (log : Option (List Char)) :
    (check_shader_compilation_failure shader status log).2 =
      if status_false status then
        ["COMPILING ERROR:".toList, cstr (glGetInfoLog 512 log info_buffer)] else [] := by
  simp only [check_shader_compilation_failure, status_false]
  split <;> rfl

theorem check_link_err (program : Nat) (status : Option Int) (log : Option (List Char)) :
    (check_shader_linking_failure program status log).2 =
      if status_false status then
        ["LINKING ERROR:".toList, cstr (glGetInfoLog 512 log info_buffer)] else [] := by
  simp only [check_shader_linking_failure, status_false]
  split <;> rfl

theorem check_compile_calls (shader : Nat) (status : Option Int) (log : Option (List Char)) :
    (check_shader_compilation_failure shader status log).1 =
      Call.glGetShaderiv shader Sym.GL_COMPILE_STATUS ::
        (if status_false status then [Call.glGetShaderInfoLog shader 512] else []) := by
  simp only [check_shader_compilation_failure, status_false]
  split <;> rfl

theorem check_link_calls (program : Nat) (status : Option Int) (log : Option (List Char)) :
    (check_shader_linking_failure program status log).1 =
      Call.glGetProgramiv program Sym.GL_LINK_STATUS ::
        (if status_false status then [Call.glGetProgramInfoLog program 512] else []) := by
  simp only [check_shader_linking_failure, status_false]
  split <;> rfl

theorem hello_main_eq (e : Env) (hf : ¬ startup_fails e) :
    HelloTriangle.main e =
      if e.frames.any HostFrame.raises then
        some ⟨HelloTriangle.setup e
            ++ ((executed e.frames).flatMap (fun h =>
                  Call.glfwWindowShouldClose e.win :: (HelloTriangle.frame_body e.win h false).1)
                ++ [Call.glfwWindowShouldClose e.win])
            ++ [Call.glfwTerminate],
          diagnostics e, 0⟩
      else none := by
  simp only [startup_fails, not_or] at hf
  obtain ⟨h1, h2, h3⟩ := hf
  simp only [HelloTriangle.main, h1, h2, h3, if_false, hello_frame_loop_false,
    HelloTriangle.setup, diagnostics, check_compile_err, check_link_err]
  by_cases ha : e.frames.any HostFrame.raises = true <;> simp [ha]

theorem shaders_main_eq (sin : ℚ → ℚ) (e : Env) (hf : ¬ startup_fails e) :
    Shaders.main sin e =
      if e.frames.any HostFrame.raises then
        some ⟨Shaders.setup e
            ++ ((Shaders.bodies sin e.win e.vertex_color_location e.time_value
                    (executed e.frames)).flatMap
                  (fun b => Call.glfwWindowShouldClose e.win :: b)
                ++ [Call.glfwWindowShouldClose e.win])
            ++ [Call.glfwTerminate],
          diagnostics e, 0⟩
      else none := by
  simp only [startup_fails, not_or] at hf
  obtain ⟨h1, h2, h3⟩ := hf
  simp only [Shaders.main, h1, h2, h3, if_false, shaders_frame_loop_false,
    Shaders.setup, diagnostics, check_compile_err, check_link_err]
  by_cases ha : e.frames.any HostFrame.raises = true <;> simp [ha]

theorem hello_main_fatal (e : Env) (hf : startup_fails e) :
    ∃ r, HelloTriangle.main e = some r ∧ r.code = 1 ∧ draws r.calls = [] := by
  by_cases h1 : e.win = 0
  · simp only [HelloTriangle.main, h1, if_true]
    exact ⟨_, rfl, rfl, by simp [draws, Call.draw?, window_calls]⟩
  by_cases h2 : e.glad = 0
  · simp only [HelloTriangle.main, h1, h2, if_true, if_false]
    exact ⟨_, rfl, rfl, by simp [draws, Call.draw?, window_calls]⟩
  have h3 : e.shader_program = 0 := by
    rcases hf with h | h | h
    · exact absurd h h1
    · exact absurd h h2
    · exact h
  simp only [HelloTriangle.main, h1, h2, h3, if_true, if_false]
  refine ⟨_, rfl, rfl, ?_⟩
  simp only [check_compile_calls]
  split_ifs <;> simp [draws, Call.draw?, window_calls]

theorem shaders_main_fatal (sin : ℚ → ℚ) (e : Env) (hf : startup_fails e) :
    ∃ r, Shaders.main sin e = some r ∧ r.code = 1 ∧ draws r.calls = [] := by
  by_cases h1 : e.win = 0
  · simp only [Shaders.main, h1, if_true]
    exact ⟨_, rfl, rfl, by simp [draws, Call.draw?, window_calls]⟩
  by_cases h2 : e.glad = 0
  · simp only [Shaders.main, h1, h2, if_true, if_false]
    exact ⟨_, rfl, rfl, by simp [draws, Call.draw?, window_calls]⟩
  have h3 : e.shader_program = 0 := by
    rcases hf with h | h | h
    · exact absurd h h1
    · exact absurd h h2
    · exact h
  simp only [Shaders.main, h1, h2, h3, if_true, if_false]
  refine ⟨_, rfl, rfl, ?_⟩
  simp only [check_compile_calls]
  split_ifs <;> simp [draws, Call.draw?, window_calls]

theorem executed_append_raises (before after : List HostFrame) (f : HostFrame)
    (hb : ∀ h ∈ before, h.raises = false) (hf : f.raises = true) :
    executed (before ++ f :: after) = before ++ [f] := by
  induction before with
  | nil => simp [executed, hf]
  | cons a t ih =>
    have ha : a.raises = false := hb a (List.mem_cons_self a t)
    have ht : ∀ h ∈ t, h.raises = false := fun h hh => hb h (List.mem_cons_of_mem a hh)
    simp [executed, ha, ih ht]

theorem any_raises_append (before after : List HostFrame) (f : HostFrame)
    (hf : f.raises = true) : (before ++ f :: after).any HostFrame.raises = true := by
  simp [hf]

theorem resizes_filterMap {α : Type} (f : Call → Option α) (h : HostFrame)
    (h2 : ∀ x y w z, f (Call.glViewport x y w z) = none) :
    (h.resizes.flatMap (fun p => framebuffer_size_callback p.1 p.2)).filterMap f = [] := by
  simp only [List.filterMap_eq_nil_iff, List.mem_flatMap, framebuffer_size_callback,
    List.mem_singleton]
  rintro a ⟨p, _, rfl⟩
  exact h2 _ _ _ _

theorem hello_frame_body_calls (win : Nat) (h : HostFrame) (flag : Bool) :
    (HelloTriangle.frame_body win h flag).1 =
      [Call.glClearColor 0.2 0.3 0.3 1.0, Call.glClear Sym.GL_COLOR_BUFFER_BIT,
        Call.glfwGetKey win Sym.GLFW_KEY_ESCAPE]
      ++ (if h.key = KeyState.GLFW_PRESS then [Call.glfwSetWindowShouldClose win true] else [])
      ++ [Call.glfwPollEvents]
      ++ h.resizes.flatMap (fun p => framebuffer_size_callback p.1 p.2)
      ++ [Call.glDrawArrays Sym.GL_TRIANGLES 0 3, Call.glfwSwapBuffers win] := by
  simp only [HelloTriangle.frame_body, process_input, glfwPollEvents]
  split <;> simp

theorem shaders_frame_body_calls (sin : ℚ → ℚ) (win : Nat) (loc : Int) (h : HostFrame)
    (flag : Bool) (tv : ℚ) :
    (Shaders.frame_body sin win loc h flag tv).1 =
      [Call.glfwGetTime, Call.glUniform4f loc 0.0 ((sin tv / 2.0) + 0.5) 0.0 1.0,
        Call.glClearColor 0.2 0.3 0.3 1.0, Call.glClear Sym.GL_COLOR_BUFFER_BIT,
        Call.glfwGetKey win Sym.GLFW_KEY_ESCAPE]
      ++ (if h.key = KeyState.GLFW_PRESS then [Call.glfwSetWindowShouldClose win true] else [])
      ++ [Call.glfwPollEvents]
      ++ h.resizes.flatMap (fun p => framebuffer_size_callback p.1 p.2)
      ++ [Call.glDrawArrays Sym.GL_TRIANGLES 0 6, Call.glfwSwapBuffers win] := by
  simp only [Shaders.frame_body, process_input, glfwPollEvents]
  split <;> simp

theorem not_raises_key (h : HostFrame) (hr : h.raises = false) :
    ¬ h.key = KeyState.GLFW_PRESS := by
  intro hk
  simp [HostFrame.raises, hk] at hr

theorem hello_draws_frame_body (win : Nat) (h : HostFrame) (flag : Bool) :
    draws (HelloTriangle.frame_body win h flag).1 = [(Sym.GL_TRIANGLES, 0, 3)] := by
  simp only [hello_frame_body_calls, draws, List.filterMap_append,
    resizes_filterMap Call.draw? h (fun _ _ _ _ => rfl)]
  split <;> simp [Call.draw?]

theorem shaders_draws_frame_body (sin : ℚ → ℚ) (win : Nat) (loc : Int) (h : HostFrame)
    (flag : Bool) (tv : ℚ) :
    draws (Shaders.frame_body sin win loc h flag tv).1 = [(Sym.GL_TRIANGLES, 0, 6)] := by
  simp only [shaders_frame_body_calls, draws, List.filterMap_append,
    resizes_filterMap Call.draw? h (fun _ _ _ _ => rfl)]
  split <;> simp [Call.draw?]

theorem hello_draws_loop (win : Nat) (hs : List HostFrame) :
    draws (hs.flatMap (fun h =>
        Call.glfwWindowShouldClose win :: (HelloTriangle.frame_body win h false).1)) =
      hs.map (fun _ => (Sym.GL_TRIANGLES, 0, 3)) := by
  induction hs with
  | nil => rfl
  | cons a t ih =>
    have hd := hello_draws_frame_body win a false
    simp only [draws] at hd ih
    simp [draws, List.flatMap_cons, List.filterMap_append, hd, ih, Call.draw?]

theorem shaders_draws_loop (sin : ℚ → ℚ) (win : Nat) (loc : Int) :
    ∀ (hs : List HostFrame) (tv : ℚ),
    draws ((Shaders.bodies sin win loc tv hs).flatMap (fun b =>
        Call.glfwWindowShouldClose win :: b)) =
      hs.map (fun _ => (Sym.GL_TRIANGLES, 0, 6)) := by
  intro hs
  induction hs with
  | nil => intro tv; rfl
  | cons a t ih =>
    intro tv
    have hd := shaders_draws_frame_body sin win loc a false tv
    have ih2 := ih a.time
    simp only [draws] at hd ih2
    simp [draws, Shaders.bodies, List.flatMap_cons, List.filterMap_append, hd, ih2, Call.draw?]

theorem draws_setup_hello (e : Env) : draws (HelloTriangle.setup e) = [] := by
  simp only [HelloTriangle.setup, check_compile_calls, check_link_calls]
  split_ifs <;> simp [draws, Call.draw?, window_calls]

theorem draws_setup_shaders (e : Env) : draws (Shaders.setup e) = [] := by
  simp only [Shaders.setup, check_compile_calls, check_link_calls]
  split_ifs <;> simp [draws, Call.draw?, window_calls]

theorem hello_body_filterMap {α : Type} (f : Call → Option α)
    (hv : ∀ x y w z, f (Call.glViewport x y w z) = none) (win : Nat) (h : HostFrame) :
    (Call.glfwWindowShouldClose win :: (HelloTriangle.frame_body win h false).1).filterMap f =
      ([Call.glfwWindowShouldClose win,
          Call.glClearColor 0.2 0.3 0.3 1.0, Call.glClear Sym.GL_COLOR_BUFFER_BIT,
          Call.glfwGetKey win Sym.GLFW_KEY_ESCAPE]
        ++ (if h.key = KeyState.GLFW_PRESS then [Call.glfwSetWindowShouldClose win true] else [])
        ++ [Call.glfwPollEvents, Call.glDrawArrays Sym.GL_TRIANGLES 0 3,
            Call.glfwSwapBuffers win]).filterMap f := by
  rw [hello_frame_body_calls]
  have hsplit : ∀ (A I R D : List Call),
      Call.glfwWindowShouldClose win :: (A ++ I ++ [Call.glfwPollEvents] ++ R ++ D) =
        ([Call.glfwWindowShouldClose win] ++ A ++ I ++ [Call.glfwPollEvents]) ++ R ++ D := by
    intro A I R D
    simp
  rw [hsplit, List.filterMap_append, List.filterMap_append, resizes_filterMap f h hv,
    List.append_nil, ← List.filterMap_append]
  congr 1
  simp

theorem hello_loop_filterMap {α : Type} (f : Call → Option α)
    (hv : ∀ x y w z, f (Call.glViewport x y w z) = none) (win : Nat) (hs : List HostFrame) :
    (hs.flatMap (fun h =>
        Call.glfwWindowShouldClose win :: (HelloTriangle.frame_body win h false).1)).filterMap f =
      hs.flatMap (fun h =>
        ([Call.glfwWindowShouldClose win,
          Call.glClearColor 0.2 0.3 0.3 1.0, Call.glClear Sym.GL_COLOR_BUFFER_BIT,
          Call.glfwGetKey win Sym.GLFW_KEY_ESCAPE]
        ++ (if h.key = KeyState.GLFW_PRESS then [Call.glfwSetWindowShouldClose win true] else [])
        ++ [Call.glfwPollEvents, Call.glDrawArrays Sym.GL_TRIANGLES 0 3,
            Call.glfwSwapBuffers win]).filterMap f) := by
  induction hs with
  | nil => rfl
  | cons a t ih =>
    rw [List.flatMap_cons, List.flatMap_cons, List.filterMap_append, ih,
      hello_body_filterMap f hv]

theorem shaders_body_filterMap {α : Type} (f : Call → Option α)
    (hv : ∀ x y w z, f (Call.glViewport x y w z) = none) (sin : ℚ → ℚ) (win : Nat) (loc : Int)
    (h : HostFrame) (tv : ℚ) :
    (Call.glfwWindowShouldClose win ::
        (Shaders.frame_body sin win loc h false tv).1).filterMap f =
      ([Call.glfwWindowShouldClose win,
          Call.glfwGetTime, Call.glUniform4f loc 0.0 ((sin tv / 2.0) + 0.5) 0.0 1.0,
          Call.glClearColor 0.2 0.3 0.3 1.0, Call.glClear Sym.GL_COLOR_BUFFER_BIT,
          Call.glfwGetKey win Sym.GLFW_KEY_ESCAPE]
        ++ (if h.key = KeyState.GLFW_PRESS then [Call.glfwSetWindowShouldClose win true] else [])
        ++ [Call.glfwPollEvents, Call.glDrawArrays Sym.GL_TRIANGLES 0 6,
            Call.glfwSwapBuffers win]).filterMap f := by
  rw [shaders_frame_body_calls]
  have hsplit : ∀ (A I R D : List Call),
      Call.glfwWindowShouldClose win :: (A ++ I ++ [Call.glfwPollEvents] ++ R ++ D) =
        ([Call.glfwWindowShouldClose win] ++ A ++ I ++ [Call.glfwPollEvents]) ++ R ++ D := by
    intro A I R D
    simp
  rw [hsplit, List.filterMap_append, List.filterMap_append, resizes_filterMap f h hv,
    List.append_nil, ← List.filterMap_append]
  congr 1
  simp

theorem shaders_loop_filterMap {α : Type} (f : Call → Option α)
    (hv : ∀ x y w z, f (Call.glViewport x y w z) = none) (sin : ℚ → ℚ) (win : Nat) (loc : Int) :
    ∀ (hs : List HostFrame) (tv : ℚ),
    ((Shaders.bodies sin win loc tv hs).flatMap (fun b =>
        Call.glfwWindowShouldClose win :: b)).filterMap f =
      (hs.zip (tv :: hs.map HostFrame.time)).flatMap (fun ht =>
        ([Call.glfwWindowShouldClose win,
          Call.glfwGetTime, Call.glUniform4f loc 0.0 ((sin ht.2 / 2.0) + 0.5) 0.0 1.0,
          Call.glClearColor 0.2 0.3 0.3 1.0, Call.glClear Sym.GL_COLOR_BUFFER_BIT,
          Call.glfwGetKey win Sym.GLFW_KEY_ESCAPE]
        ++ (if ht.1.key = KeyState.GLFW_PRESS then
              [Call.glfwSetWindowShouldClose win true] else [])
        ++ [Call.glfwPollEvents, Call.glDrawArrays Sym.GL_TRIANGLES 0 6,
            Call.glfwSwapBuffers win]).filterMap f) := by
  intro hs
  induction hs with
  | nil => intro tv; rfl
  | cons a t ih =>
    intro tv
    rw [Shaders.bodies, List.map_cons, List.zip_cons_cons, List.flatMap_cons, List.flatMap_cons,
      List.filterMap_append, ih, shaders_body_filterMap f hv]

theorem flatMap_nil_of_forall {α β : Type} (l : List α) (g : α → List β)
    (h : ∀ a ∈ l, g a = []) : l.flatMap g = [] := by
  induction l with
  | nil => rfl
  | cons a t ih =>
    simp [List.flatMap_cons, h a (List.mem_cons_self a t),
      ih (fun b hb => h b (List.mem_cons_of_mem a hb))]

theorem close_sets_setup_hello (e : Env) : close_sets (HelloTriangle.setup e) = [] := by
  simp only [HelloTriangle.setup, check_compile_calls, check_link_calls]
  split_ifs <;> simp [close_sets, Call.setClose?, window_calls]

theorem close_sets_setup_shaders (e : Env) : close_sets (Shaders.setup e) = [] := by
  simp only [Shaders.setup, check_compile_calls, check_link_calls]
  split_ifs <;> simp [close_sets, Call.setClose?, window_calls]

theorem terminations_setup_hello (e : Env) : terminations (HelloTriangle.setup e) = [] := by
  simp only [HelloTriangle.setup, check_compile_calls, check_link_calls]
  split_ifs <;> simp [terminations, Call.terminate?, window_calls]

theorem terminations_setup_shaders (e : Env) : terminations (Shaders.setup e) = [] := by
  simp only [Shaders.setup, check_compile_calls, check_link_calls]
  split_ifs <;> simp [terminations, Call.terminate?, window_calls]

theorem hello_close_sets_loop (win : Nat) (hs : List HostFrame) :
    close_sets (hs.flatMap (fun h =>
        Call.glfwWindowShouldClose win :: (HelloTriangle.frame_body win h false).1)) =
      hs.flatMap (fun h => if h.key = KeyState.GLFW_PRESS then [true] else []) := by
  rw [close_sets, hello_loop_filterMap Call.setClose? (fun _ _ _ _ => rfl)]
  congr 1
  funext h
  split <;> simp [Call.setClose?]

theorem shaders_close_sets_loop (sin : ℚ → ℚ) (win : Nat) (loc : Int) (hs : List HostFrame)
    (tv : ℚ) :
    close_sets ((Shaders.bodies sin win loc tv hs).flatMap (fun b =>
        Call.glfwWindowShouldClose win :: b)) =
      (hs.zip (tv :: hs.map HostFrame.time)).flatMap
        (fun ht => if ht.1.key = KeyState.GLFW_PRESS then [true] else []) := by
  rw [close_sets, shaders_loop_filterMap Call.setClose? (fun _ _ _ _ => rfl)]
  congr 1
  funext h
  split <;> simp [Call.setClose?]

theorem hello_terminations_loop (win : Nat) (hs : List HostFrame) :
    terminations (hs.flatMap (fun h =>
        Call.glfwWindowShouldClose win :: (HelloTriangle.frame_body win h false).1)) = [] := by
  rw [terminations, hello_loop_filterMap Call.terminate? (fun _ _ _ _ => rfl)]
  apply flatMap_nil_of_forall
  intro h _
  split <;> simp [Call.terminate?]

theorem shaders_terminations_loop (sin : ℚ → ℚ) (win : Nat) (loc : Int) (hs : List HostFrame)
    (tv : ℚ) :
    terminations ((Shaders.bodies sin win loc tv hs).flatMap (fun b =>
        Call.glfwWindowShouldClose win :: b)) = [] := by
  rw [terminations, shaders_loop_filterMap Call.terminate? (fun _ _ _ _ => rfl)]
  apply flatMap_nil_of_forall
  intro h _
  split <;> simp [Call.terminate?]

theorem close_flatMap_before (before : List HostFrame)
    (hb : ∀ h ∈ before, h.raises = false) :
    before.flatMap (fun h => if h.key = KeyState.GLFW_PRESS then [true] else []) = [] := by
  apply flatMap_nil_of_forall
  intro h hh
  simp [not_raises_key h (hb h hh)]

theorem close_flatMap_zip (before : List HostFrame) (ts : List ℚ)
    (hb : ∀ h ∈ before, h.raises = false) :
    (before.zip ts).flatMap
      (fun ht => if ht.1.key = KeyState.GLFW_PRESS then [true] else []) = [] := by
  apply flatMap_nil_of_forall
  intro ht hh
  have hm : ht.1 ∈ before := (List.of_mem_zip hh).1
  simp [not_raises_key ht.1 (hb ht.1 hm)]

theorem shaders_bodies_append (sin : ℚ → ℚ) (win : Nat) (loc : Int) :
    ∀ (l1 l2 : List HostFrame) (tv : ℚ),
    Shaders.bodies sin win loc tv (l1 ++ l2) =
      Shaders.bodies sin win loc tv l1
        ++ Shaders.bodies sin win loc (l1.foldl (fun _ h => h.time) tv) l2 := by
  intro l1
  induction l1 with
  | nil => intro l2 tv; rfl
  | cons a t ih =>
    intro l2 tv
    simp [Shaders.bodies, ih]

theorem shaders_length_bodies (sin : ℚ → ℚ) (win : Nat) (loc : Int) :
    ∀ (l : List HostFrame) (tv : ℚ), (Shaders.bodies sin win loc tv l).length = l.length := by
  intro l
  induction l with
  | nil => intro tv; rfl
  | cons a t ih => intro tv; simp [Shaders.bodies, ih]

theorem zip_times_append (f : HostFrame) : ∀ (before : List HostFrame) (tv : ℚ),
    (before ++ [f]).zip (tv :: (before ++ [f]).map HostFrame.time) =
      before.zip (tv :: before.map HostFrame.time)
        ++ [(f, before.foldl (fun _ h => h.time) tv)] := by
  intro before
  induction before with
  | nil => intro tv; simp
  | cons a t ih =>
    intro tv
    simp only [List.cons_append, List.map_cons, List.zip_cons_cons, List.foldl_cons]
    rw [ih a.time]

theorem hello_frame_body_shape (win : Nat) (h : HostFrame) (flag : Bool) :
    ∃ mid, (HelloTriangle.frame_body win h flag).1 =
        [Call.glClearColor 0.2 0.3 0.3 1.0, Call.glClear Sym.GL_COLOR_BUFFER_BIT] ++ mid
          ++ [Call.glDrawArrays Sym.GL_TRIANGLES 0 3, Call.glfwSwapBuffers win]
      ∧ draws mid = [] ∧ loop_checks mid = [] := by
  refine ⟨[Call.glfwGetKey win Sym.GLFW_KEY_ESCAPE]
      ++ (if h.key = KeyState.GLFW_PRESS then [Call.glfwSetWindowShouldClose win true] else [])
      ++ [Call.glfwPollEvents]
      ++ h.resizes.flatMap (fun p => framebuffer_size_callback p.1 p.2), ?_, ?_, ?_⟩
  · rw [hello_frame_body_calls]
    simp
  · simp only [draws, List.filterMap_append,
      resizes_filterMap Call.draw? h (fun _ _ _ _ => rfl)]
    split <;> simp [Call.draw?]
  · simp only [loop_checks, List.filterMap_append,
      resizes_filterMap Call.loopCheck? h (fun _ _ _ _ => rfl)]
    split <;> simp [Call.loopCheck?]

theorem loop_checks_setup_hello (e : Env) : loop_checks (HelloTriangle.setup e) = [] := by
  simp only [HelloTriangle.setup, check_compile_calls, check_link_calls]
  split_ifs <;> simp [loop_checks, Call.loopCheck?, window_calls]

theorem loop_checks_setup_shaders (e : Env) : loop_checks (Shaders.setup e) = [] := by
  simp only [Shaders.setup, check_compile_calls, check_link_calls]
  split_ifs <;> simp [loop_checks, Call.loopCheck?, window_calls]

theorem uploads_setup_hello (e : Env) :
    uploads (HelloTriangle.setup e) = [(36, HelloTriangle.vertices)] := by
  simp only [HelloTriangle.setup, check_compile_calls, check_link_calls]
  split_ifs <;> simp [uploads, Call.upload?, window_calls, HelloTriangle.vertices, sizeof_float]

theorem layouts_setup_hello (e : Env) :
    layouts (HelloTriangle.setup e) = [(0, 3, Sym.GL_FLOAT, false, 3 * sizeof_float, 0)] := by
  simp only [HelloTriangle.setup, check_compile_calls, check_link_calls]
  split_ifs <;> simp [layouts, Call.layout?, window_calls]

theorem enabled_setup_hello (e : Env) : enabled (HelloTriangle.setup e) = [0] := by
  simp only [HelloTriangle.setup, check_compile_calls, check_link_calls]
  split_ifs <;> simp [enabled, Call.enable?, window_calls]

theorem hello_uploads_loop (win : Nat) (hs : List HostFrame) :
    uploads (hs.flatMap (fun h =>
        Call.glfwWindowShouldClose win :: (HelloTriangle.frame_body win h false).1)) = [] := by
  rw [uploads, hello_loop_filterMap Call.upload? (fun _ _ _ _ => rfl)]
  apply flatMap_nil_of_forall
  intro h _
  split <;> simp [Call.upload?]

theorem hello_layouts_loop (win : Nat) (hs : List HostFrame) :
    layouts (hs.flatMap (fun h =>
        Call.glfwWindowShouldClose win :: (HelloTriangle.frame_body win h false).1)) = [] := by
  rw [layouts, hello_loop_filterMap Call.layout? (fun _ _ _ _ => rfl)]
  apply flatMap_nil_of_forall
  intro h _
  split <;> simp [Call.layout?]

theorem hello_enabled_loop (win : Nat) (hs : List HostFrame) :
    enabled (hs.flatMap (fun h =>
        Call.glfwWindowShouldClose win :: (HelloTriangle.frame_body win h false).1)) = [] := by
  rw [enabled, hello_loop_filterMap Call.enable? (fun _ _ _ _ => rfl)]
  apply flatMap_nil_of_forall
  intro h _
  split <;> simp [Call.enable?]

theorem flatMap_cons_map {α β : Type} (l : List α) (c : β) (g : α → List β) :
    l.flatMap (fun a => c :: g a) = (l.map g).flatMap (fun b => c :: b) := by
  induction l with
  | nil => rfl
  | cons a t ih => simp [List.flatMap_cons, ih]

theorem shaders_frame_body_shape (sin : ℚ → ℚ) (win : Nat) (loc : Int) (h : HostFrame)
    (flag : Bool) (tv : ℚ) :
    loop_checks (Shaders.frame_body sin win loc h flag tv).1 = []
      ∧ (draws (Shaders.frame_body sin win loc h flag tv).1).map (fun d => d.1)
          = [Sym.GL_TRIANGLES] := by
  refine ⟨?_, by rw [shaders_draws_frame_body]; rfl⟩
  simp only [shaders_frame_body_calls, loop_checks, List.filterMap_append,
    resizes_filterMap Call.loopCheck? h (fun _ _ _ _ => rfl)]
  split <;> simp [Call.loopCheck?]

theorem shaders_bodies_shape (sin : ℚ → ℚ) (win : Nat) (loc : Int) :
    ∀ (hs : List HostFrame) (tv : ℚ), ∀ b ∈ Shaders.bodies sin win loc tv hs,
      loop_checks b = [] ∧ (draws b).map (fun d => d.1) = [Sym.GL_TRIANGLES] := by
  intro hs
  induction hs with
  | nil => intro tv b hb; simp [Shaders.bodies] at hb
  | cons a t ih =>
    intro tv b hb
    simp only [Shaders.bodies, List.mem_cons] at hb
    rcases hb with rfl | hb
    · exact shaders_frame_body_shape sin win loc a false tv
    · exact ih a.time b hb

theorem uploads_setup_shaders (e : Env) :
    uploads (Shaders.setup e) = [(72, Shaders.vertices)] := by
  simp only [Shaders.setup, check_compile_calls, check_link_calls]
  split_ifs <;> simp [uploads, Call.upload?, window_calls, Shaders.vertices, sizeof_float]

theorem layouts_setup_shaders (e : Env) :
    layouts (Shaders.setup e) =
      [(0, 3, Sym.GL_FLOAT, false, 6 * sizeof_float, 0),
       (1, 3, Sym.GL_FLOAT, false, 6 * sizeof_float, 3 * sizeof_float)] := by
  simp only [Shaders.setup, check_compile_calls, check_link_calls]
  split_ifs <;> simp [layouts, Call.layout?, window_calls]

theorem enabled_setup_shaders (e : Env) : enabled (Shaders.setup e) = [0, 1] := by
  simp only [Shaders.setup, check_compile_calls, check_link_calls]
  split_ifs <;> simp [enabled, Call.enable?, window_calls]

theorem uniform_sets_setup_shaders (e : Env) : uniform_sets (Shaders.setup e) = [] := by
  simp only [Shaders.setup, check_compile_calls, check_link_calls]
  split_ifs <;> simp [uniform_sets, Call.uniform?, window_calls]

theorem shaders_uploads_loop (sin : ℚ → ℚ) (win : Nat) (loc : Int) (hs : List HostFrame)
    (tv : ℚ) :
    uploads ((Shaders.bodies sin win loc tv hs).flatMap (fun b =>
        Call.glfwWindowShouldClose win :: b)) = [] := by
  rw [uploads, shaders_loop_filterMap Call.upload? (fun _ _ _ _ => rfl)]
  apply flatMap_nil_of_forall
  intro h _
  split <;> simp [Call.upload?]

theorem shaders_layouts_loop (sin : ℚ → ℚ) (win : Nat) (loc : Int) (hs : List HostFrame)
    (tv : ℚ) :
    layouts ((Shaders.bodies sin win loc tv hs).flatMap (fun b =>
        Call.glfwWindowShouldClose win :: b)) = [] := by
  rw [layouts, shaders_loop_filterMap Call.layout? (fun _ _ _ _ => rfl)]
  apply flatMap_nil_of_forall
  intro h _
  split <;> simp [Call.layout?]

theorem shaders_enabled_loop (sin : ℚ → ℚ) (win : Nat) (loc : Int) (hs : List HostFrame)
    (tv : ℚ) :
    enabled ((Shaders.bodies sin win loc tv hs).flatMap (fun b =>
        Call.glfwWindowShouldClose win :: b)) = [] := by
  rw [enabled, shaders_loop_filterMap Call.enable? (fun _ _ _ _ => rfl)]
  apply flatMap_nil_of_forall
  intro h _
  split <;> simp [Call.enable?]

theorem flatMap_singleton_map {α β : Type} (l : List α) (g : α → β) :
    l.flatMap (fun a => [g a]) = l.map g := by
  induction l with
  | nil => rfl
  | cons a t ih => simp [List.flatMap_cons, ih]

theorem shaders_uniform_sets_loop (sin : ℚ → ℚ) (win : Nat) (loc : Int) (hs : List HostFrame)
    (tv : ℚ) :
    uniform_sets ((Shaders.bodies sin win loc tv hs).flatMap (fun b =>
        Call.glfwWindowShouldClose win :: b)) =
      (hs.zip (tv :: hs.map HostFrame.time)).map
        (fun ht => (loc, (sin ht.2 / 2.0) + 0.5)) := by
  rw [uniform_sets, shaders_loop_filterMap Call.uniform? (fun _ _ _ _ => rfl),
    ← flatMap_singleton_map (hs.zip (tv :: hs.map HostFrame.time))
      (fun ht => (loc, (sin ht.2 / 2.0) + 0.5))]
  congr 1
  funext h
  split <;> simp [Call.uniform?]

theorem hello_main_returns (e : Env) (hs : ¬ startup_fails e)
    (ha : e.frames.any HostFrame.raises = true) : ∃ r, HelloTriangle.main e = some r := by
  rw [hello_main_eq e hs, if_pos ha]
  exact ⟨_, rfl⟩

theorem shaders_main_returns (sin : ℚ → ℚ) (e : Env) (hs : ¬ startup_fails e)
    (ha : e.frames.any HostFrame.raises = true) : ∃ r, Shaders.main sin e = some r := by
  rw [shaders_main_eq sin e hs, if_pos ha]
  exact ⟨_, rfl⟩

theorem shaders_main_observed (sin : ℚ → ℚ) (e : Env) (r : Run)
    (hs : ¬ startup_fails e) (hr : Shaders.main sin e = some r) :
    uploads r.calls = [(72, Shaders.vertices)]
    ∧ enabled r.calls = [0, 1]
    ∧ layouts r.calls =
        [(0, 3, Sym.GL_FLOAT, false, 6 * sizeof_float, 0),
         (1, 3, Sym.GL_FLOAT, false, 6 * sizeof_float, 3 * sizeof_float)]
    ∧ draws r.calls = (executed e.frames).map (fun _ => (Sym.GL_TRIANGLES, 0, 6))
    ∧ uniform_sets r.calls =
        ((executed e.frames).zip (e.time_value :: (executed e.frames).map HostFrame.time)).map
          (fun ht => (e.vertex_color_location, (sin ht.2 / 2.0) + 0.5)) := by
  have e1 := shaders_main_eq sin e hs
  rw [hr] at e1
  split at e1
  · cases e1
    refine ⟨?_, ?_, ?_, ?_, ?_⟩
    · have h1 := uploads_setup_shaders e
      have h2 := shaders_uploads_loop sin e.win e.vertex_color_location (executed e.frames)
        e.time_value
      simp only [uploads] at h1 h2 ⊢
      simp only [List.filterMap_append, h1, h2]
      simp [Call.upload?]
    · have h1 := enabled_setup_shaders e
      have h2 := shaders_enabled_loop sin e.win e.vertex_color_location (executed e.frames)
        e.time_value
      simp only [enabled] at h1 h2 ⊢
      simp only [List.filterMap_append, h1, h2]
      simp [Call.enable?]
    · have h1 := layouts_setup_shaders e
      have h2 := shaders_layouts_loop sin e.win e.vertex_color_location (executed e.frames)
        e.time_value
      simp only [layouts] at h1 h2 ⊢
      simp only [List.filterMap_append, h1, h2]
      simp [Call.layout?]
    · have h1 := draws_setup_shaders e
      have h2 := shaders_draws_loop sin e.win e.vertex_color_location (executed e.frames)
        e.time_value
      simp only [draws] at h1 h2 ⊢
      simp only [List.filterMap_append, h1, h2]
      simp [Call.draw?]
    · have h1 := uniform_sets_setup_shaders e
      have h2 := shaders_uniform_sets_loop sin e.win e.vertex_color_location
        (executed e.frames) e.time_value
      simp only [uniform_sets] at h1 h2 ⊢
      simp only [List.filterMap_append, h1, h2]
      simp [Call.uniform?]
  · cases e1

theorem executed_demo : executed demo_env.frames = [demo_idle, demo_escape] := by
  rfl

theorem demo_leaves : demo_env.frames.any HostFrame.raises = true := by
  decide

theorem demo_starts : ¬ startup_fails demo_env := by
  decide

theorem cstr_append_nul (a b : List Char) : cstr (a ++ [NUL] ++ b) = cstr a := by
  induction a with
  | nil => simp [cstr]
  | cons c t ih =>
    simp only [cstr, List.cons_append, List.takeWhile_cons] at ih ⊢
    split
    · rw [ih]
    · rfl

theorem cstr_length_le (a : List Char) : (cstr a).length ≤ a.length := by
  induction a with
  | nil => simp [cstr]
  | cons c t ih =>
    simp only [cstr, List.takeWhile_cons] at ih ⊢
    split
    · simp only [List.length_cons]
      omega
    · simp

theorem cstr_info_buffer : cstr info_buffer = ['\n'] := by
  decide

theorem cstr_glGetInfoLog (log : Option (List Char)) :
    cstr (glGetInfoLog 512 log info_buffer) =
      match log with
      | none => ['\n']
      | some l => cstr (l.take 511) := by
  cases log with
  | none => exact cstr_info_buffer
  | some l =>
    simp only [glGetInfoLog]
    exact cstr_append_nul _ _

theorem cstr_glGetInfoLog_length (log : Option (List Char)) :
    (cstr (glGetInfoLog 512 log info_buffer)).length ≤ 511 := by
  rw [cstr_glGetInfoLog]
  cases log with
  | none => simp
  | some l =>
    have h1 := cstr_length_le (l.take 511)
    have h2 : (l.take 511).length ≤ 511 := by simp
    exact le_trans h1 h2

theorem cstr_take_ne_nil (l : List Char) (h : cstr l ≠ []) : cstr (l.take 511) ≠ [] := by
  cases l with
  | nil => simp [cstr] at h
  | cons c t =>
    simp only [cstr, List.takeWhile_cons] at h
    simp only [cstr, Nat.reduceAdd, List.take_succ_cons, List.takeWhile_cons]
    split
    · simp
    · rename_i hc
      simp [hc] at h

theorem hello_setup_split (e : Env) :
    HelloTriangle.setup e = HelloTriangle.compile_phase e ++ link_phase e
      ++ [Call.glVertexAttribPointer 0 3 Sym.GL_FLOAT false (3 * sizeof_float) 0,
          Call.glEnableVertexAttribArray 0] := by
  simp [HelloTriangle.setup, HelloTriangle.compile_phase, link_phase, check_link_calls]

theorem shaders_setup_split (e : Env) :
    Shaders.setup e = Shaders.compile_phase e ++ link_phase e
      ++ [Call.glVertexAttribPointer 0 3 Sym.GL_FLOAT false (6 * sizeof_float) 0,
          Call.glEnableVertexAttribArray 0,
          Call.glVertexAttribPointer 1 3 Sym.GL_FLOAT false (6 * sizeof_float)
            (3 * sizeof_float),
          Call.glEnableVertexAttribArray 1,
          Call.glGetUniformLocation e.shader_program "ourColor"] := by
  simp [Shaders.setup, Shaders.compile_phase, link_phase, check_link_calls]

theorem hello_compile_phase_quiet (e : Env) :
    draws (HelloTriangle.compile_phase e) = []
      ∧ uniform_queries (HelloTriangle.compile_phase e) = []
      ∧ loop_checks (HelloTriangle.compile_phase e) = [] := by
  simp only [HelloTriangle.compile_phase, check_compile_calls]
  split_ifs <;>
    simp [draws, Call.draw?, uniform_queries, Call.uniformLocation?, loop_checks,
      Call.loopCheck?, window_calls]

theorem shaders_compile_phase_quiet (e : Env) :
    draws (Shaders.compile_phase e) = []
      ∧ uniform_queries (Shaders.compile_phase e) = []
      ∧ loop_checks (Shaders.compile_phase e) = [] := by
  simp only [Shaders.compile_phase, check_compile_calls]
  split_ifs <;>
    simp [draws, Call.draw?, uniform_queries, Call.uniformLocation?, loop_checks,
      Call.loopCheck?, window_calls]

theorem link_phase_quiet (e : Env) :
    draws (link_phase e) = [] ∧ uniform_queries (link_phase e) = []
      ∧ loop_checks (link_phase e) = [] := by
  simp only [link_phase]
  split_ifs <;>
    simp [draws, Call.draw?, uniform_queries, Call.uniformLocation?, loop_checks,
      Call.loopCheck?]

theorem shaders_uniform_queries_loop (sin : ℚ → ℚ) (win : Nat) (loc : Int)
    (hs : List HostFrame) (tv : ℚ) :
    uniform_queries ((Shaders.bodies sin win loc tv hs).flatMap (fun b =>
        Call.glfwWindowShouldClose win :: b)) = [] := by
  rw [uniform_queries, shaders_loop_filterMap Call.uniformLocation? (fun _ _ _ _ => rfl)]
  apply flatMap_nil_of_forall
  intro h _
  split <;> simp [Call.uniformLocation?]

theorem executed_eq_cons (hs : List HostFrame) (h : hs.any HostFrame.raises = true) :
    ∃ h0 rest, executed hs = h0 :: rest := by
  have hne := executed_ne_nil_any hs h
  cases hx : executed hs with
  | nil => exact absurd hx hne
  | cons a t => exact ⟨a, t, rfl⟩

theorem filter_eq_self_of_filterMap_nil (p : Call → Bool) (l : List Call)
    (h : l.filterMap (fun c => if p c then none else some c) = []) : l.filter p = l := by
  rw [List.filter_eq_self]
  intro c hc
  have hn := List.filterMap_eq_nil_iff.mp h c hc
  by_cases hp : p c = true
  · exact hp
  · simp [hp] at hn

theorem hello_loop_no_info_log (win : Nat) (hs : List HostFrame) :
    (hs.flatMap (fun h =>
        Call.glfwWindowShouldClose win :: (HelloTriangle.frame_body win h false).1)).filter
      (fun c => !c.isInfoLog) =
    hs.flatMap (fun h =>
        Call.glfwWindowShouldClose win :: (HelloTriangle.frame_body win h false).1) := by
  apply filter_eq_self_of_filterMap_nil
  rw [hello_loop_filterMap _ (fun _ _ _ _ => rfl)]
  apply flatMap_nil_of_forall
  intro h _
  split <;> simp [Call.isInfoLog]

theorem shaders_loop_no_info_log (sin : ℚ → ℚ) (win : Nat) (loc : Int) (hs : List HostFrame)
    (tv : ℚ) :
    ((Shaders.bodies sin win loc tv hs).flatMap (fun b =>
        Call.glfwWindowShouldClose win :: b)).filter (fun c => !c.isInfoLog) =
    (Shaders.bodies sin win loc tv hs).flatMap (fun b =>
        Call.glfwWindowShouldClose win :: b) := by
  apply filter_eq_self_of_filterMap_nil
  rw [shaders_loop_filterMap _ (fun _ _ _ _ => rfl)]
  apply flatMap_nil_of_forall
  intro h _
  split <;> simp [Call.isInfoLog]

theorem hello_setup_allOk (e : Env) :
    (HelloTriangle.setup e).filter (fun c => !c.isInfoLog) = HelloTriangle.setup e.allOk := by
  simp only [HelloTriangle.setup, check_compile_calls, check_link_calls, Env.allOk]
  have h1 : ¬ status_false (some 1) := by decide
  simp only [h1, if_false]
  split_ifs <;> simp [List.filter_append, List.filter_cons, Call.isInfoLog, window_calls]

theorem shaders_setup_allOk (e : Env) :
    (Shaders.setup e).filter (fun c => !c.isInfoLog) = Shaders.setup e.allOk := by
  simp only [Shaders.setup, check_compile_calls, check_link_calls, Env.allOk]
  have h1 : ¬ status_false (some 1) := by decide
  simp only [h1, if_false]
  split_ifs <;> simp [List.filter_append, List.filter_cons, Call.isInfoLog, window_calls]

theorem startup_fails_allOk (e : Env) : startup_fails e.allOk ↔ startup_fails e := by
  rfl

/-! ## Properties of the two programs -/

/-- C1. For both programs and every answer of host and driver: a run of `main` that
returns has exit code 1 exactly when the window pointer is `NULL`, the loader returns 0 or
the program name is 0, and such a run has issued no draw call; every other run that
returns has exit code 0.  When startup fails `main` does return, and when startup
succeeds it returns as soon as some frame raises the close flag. -/
theorem exit_code_one_iff_startup_fails (sin : ℚ → ℚ) (e : Env) :
    ((∀ r, HelloTriangle.main e = some r →
          (r.code = 1 ↔ startup_fails e) ∧ (r.code = 1 → draws r.calls = [])
            ∧ (r.code ≠ 1 → r.code = 0))
      ∧ (startup_fails e → ∃ r, HelloTriangle.main e = some r ∧ r.code = 1)
      ∧ (¬ startup_fails e → e.frames.any HostFrame.raises = true →
          ∃ r, HelloTriangle.main e = some r ∧ r.code = 0))
    ∧ ((∀ r, Shaders.main sin e = some r →
          (r.code = 1 ↔ startup_fails e) ∧ (r.code = 1 → draws r.calls = [])
            ∧ (r.code ≠ 1 → r.code = 0))
      ∧ (startup_fails e → ∃ r, Shaders.main sin e = some r ∧ r.code = 1)
      ∧ (¬ startup_fails e → e.frames.any HostFrame.raises = true →
          ∃ r, Shaders.main sin e = some r ∧ r.code = 0)) := by
  by_cases hf : startup_fails e
  · obtain ⟨r1, hr1, hc1, hd1⟩ := hello_main_fatal e hf
    obtain ⟨r2, hr2, hc2, hd2⟩ := shaders_main_fatal sin e hf
    refine ⟨⟨?_, fun _ => ⟨r1, hr1, hc1⟩, fun h => absurd hf h⟩,
      ⟨?_, fun _ => ⟨r2, hr2, hc2⟩, fun h => absurd hf h⟩⟩
    · intro r hr
      rw [hr1] at hr
      cases hr
      exact ⟨⟨fun _ => hf, fun _ => hc1⟩, fun _ => hd1, fun h => absurd hc1 h⟩
    · intro r hr
      rw [hr2] at hr
      cases hr
      exact ⟨⟨fun _ => hf, fun _ => hc2⟩, fun _ => hd2, fun h => absurd hc2 h⟩
  · have e1 := hello_main_eq e hf
    have e2 := shaders_main_eq sin e hf
    refine ⟨⟨?_, fun h => absurd h hf, ?_⟩, ⟨?_, fun h => absurd h hf, ?_⟩⟩
    · intro r hr
      rw [e1] at hr
      split at hr
      · cases hr
        exact ⟨⟨fun h => by simp at h, fun h => absurd h hf⟩, fun h => by simp at h,
          fun _ => rfl⟩
      · cases hr
    · intro _ ha
      rw [e1, if_pos ha]
      exact ⟨_, rfl, rfl⟩
    · intro r hr
      rw [e2] at hr
      split at hr
      · cases hr
        exact ⟨⟨fun h => by simp at h, fun h => absurd h hf⟩, fun h => by simp at h,
          fun _ => rfl⟩
      · cases hr
    · intro _ ha
      rw [e2, if_pos ha]
      exact ⟨_, rfl, rfl⟩

/-- Witness for C1: a run with a successful startup that leaves the loop returns 0, and a
run whose program-object creation fails returns 1. -/
theorem exit_code_witness :
    (∃ r, HelloTriangle.main demo_env = some r ∧ r.code = 0)
      ∧ (∃ r, Shaders.main (fun _ => 0) demo_env_no_program = some r ∧ r.code = 1) :=
  ⟨(exit_code_one_iff_startup_fails (fun _ => 0) demo_env).1.2.2 (by decide) (by decide),
   (exit_code_one_iff_startup_fails (fun _ => 0) demo_env_no_program).2.2.1 (by decide)⟩

/-- C4. For both programs, every run whose startup succeeds and every host behaviour in
which frame `f` is the first to raise the close flag and reports escape pressed: `main`
returns 0; after the key query of that frame the trace consists of the call that sets the
close flag, the event poll with its callbacks, the draw, the buffer swap, one loop check
and `glfwTerminate`, and nothing else; the close flag is set exactly once, to true,
`glfwTerminate` is called exactly once, and every executed frame drew once.
`process_input` leaves a set close flag set and never passes false. -/
theorem escape_frame_is_completed (sin : ℚ → ℚ) (e : Env) (before after : List HostFrame)
    (f : HostFrame) (hs : ¬ startup_fails e) (hfr : e.frames = before ++ f :: after)
    (hb : ∀ h ∈ before, h.raises = false) (hk : f.key = KeyState.GLFW_PRESS) :
    (∃ r pre, HelloTriangle.main e = some r ∧ r.code = 0
        ∧ r.calls = pre
            ++ [Call.glfwGetKey e.win Sym.GLFW_KEY_ESCAPE,
                Call.glfwSetWindowShouldClose e.win true, Call.glfwPollEvents]
            ++ f.resizes.flatMap (fun p => framebuffer_size_callback p.1 p.2)
            ++ [Call.glDrawArrays Sym.GL_TRIANGLES 0 3, Call.glfwSwapBuffers e.win,
                Call.glfwWindowShouldClose e.win, Call.glfwTerminate]
        ∧ close_sets r.calls = [true] ∧ terminations r.calls = [()]
        ∧ (draws r.calls).length = before.length + 1)
    ∧ (∃ r pre, Shaders.main sin e = some r ∧ r.code = 0
        ∧ r.calls = pre
            ++ [Call.glfwGetKey e.win Sym.GLFW_KEY_ESCAPE,
                Call.glfwSetWindowShouldClose e.win true, Call.glfwPollEvents]
            ++ f.resizes.flatMap (fun p => framebuffer_size_callback p.1 p.2)
            ++ [Call.glDrawArrays Sym.GL_TRIANGLES 0 6, Call.glfwSwapBuffers e.win,
                Call.glfwWindowShouldClose e.win, Call.glfwTerminate]
        ∧ close_sets r.calls = [true] ∧ terminations r.calls = [()]
        ∧ (draws r.calls).length = before.length + 1)
    ∧ (∀ win key, (process_input win key true).2 = true)
    ∧ (∀ win key flag, ∀ v ∈ close_sets (process_input win key flag).1, v = true) := by
  have hfr2 : f.raises = true := by simp [HostFrame.raises, hk]
  have e1 := hello_main_eq e hs
  have e2 := shaders_main_eq sin e hs
  rw [hfr, if_pos (any_raises_append before after f hfr2),
    executed_append_raises before after f hb hfr2] at e1 e2
  refine ⟨?_, ?_, ?_, ?_⟩
  · refine ⟨_, HelloTriangle.setup e
        ++ before.flatMap (fun h =>
            Call.glfwWindowShouldClose e.win :: (HelloTriangle.frame_body e.win h false).1)
        ++ [Call.glfwWindowShouldClose e.win, Call.glClearColor 0.2 0.3 0.3 1.0,
            Call.glClear Sym.GL_COLOR_BUFFER_BIT], e1, rfl, ?_, ?_, ?_, ?_⟩
    · simp [List.flatMap_append, hello_frame_body_calls, hk]
    · have h1 := close_sets_setup_hello e
      have h2 := hello_close_sets_loop e.win (before ++ [f])
      simp only [close_sets] at h1 h2 ⊢
      simp only [List.filterMap_append, h1, h2]
      simp [List.flatMap_append, close_flatMap_before before hb, hk, Call.setClose?]
    · have h1 := terminations_setup_hello e
      have h2 := hello_terminations_loop e.win (before ++ [f])
      simp only [terminations] at h1 h2 ⊢
      simp only [List.filterMap_append, h1, h2]
      simp [Call.terminate?]
    · have h1 := draws_setup_hello e
      have h2 := hello_draws_loop e.win (before ++ [f])
      simp only [draws] at h1 h2 ⊢
      simp only [List.filterMap_append, h1, h2]
      simp [Call.draw?]
  · refine ⟨_, Shaders.setup e
        ++ (Shaders.bodies sin e.win e.vertex_color_location e.time_value before).flatMap
            (fun b => Call.glfwWindowShouldClose e.win :: b)
        ++ [Call.glfwWindowShouldClose e.win, Call.glfwGetTime,
            Call.glUniform4f e.vertex_color_location 0.0
              ((sin (before.foldl (fun _ h => h.time) e.time_value) / 2.0) + 0.5) 0.0 1.0,
            Call.glClearColor 0.2 0.3 0.3 1.0,
            Call.glClear Sym.GL_COLOR_BUFFER_BIT], e2, rfl, ?_, ?_, ?_, ?_⟩
    · simp [List.flatMap_append, shaders_bodies_append, Shaders.bodies,
        shaders_frame_body_calls, hk]
    · have h1 := close_sets_setup_shaders e
      have h2 := shaders_close_sets_loop sin e.win e.vertex_color_location (before ++ [f])
        e.time_value
      simp only [close_sets] at h1 h2 ⊢
      rw [List.filterMap_append, List.filterMap_append, List.filterMap_append, h1, h2]
      rw [zip_times_append, List.flatMap_append, close_flatMap_zip before _ hb]
      simp [hk, Call.setClose?]
    · have h1 := terminations_setup_shaders e
      have h2 := shaders_terminations_loop sin e.win e.vertex_color_location (before ++ [f])
        e.time_value
      simp only [terminations] at h1 h2 ⊢
      simp only [List.filterMap_append, h1, h2]
      simp [Call.terminate?]
    · have h1 := draws_setup_shaders e
      have h2 := shaders_draws_loop sin e.win e.vertex_color_location (before ++ [f])
        e.time_value
      simp only [draws] at h1 h2 ⊢
      simp only [List.filterMap_append, h1, h2]
      simp [Call.draw?]
  · intro win key
    simp only [process_input]
    split <;> rfl
  · intro win key flag v hv
    simp only [process_input, close_sets] at hv
    split at hv <;> simp [Call.setClose?] at hv
    exact hv

/-- Witness for C4: in the demonstration run escape is pressed in the second frame; both
frames draw, the close flag is set once and `main` returns 0. -/
theorem escape_frame_witness :
    ∃ r, HelloTriangle.main demo_env = some r ∧ r.code = 0 ∧ close_sets r.calls = [true]
      ∧ terminations r.calls = [()] ∧ (draws r.calls).length = 2 := by
  obtain ⟨⟨r, _, h1, h2, _, h4, h5, h6⟩, _⟩ :=
    escape_frame_is_completed (fun _ => 0) demo_env [demo_idle] [demo_late] demo_escape
      (by decide) rfl (by decide) rfl
  exact ⟨r, h1, h2, h4, h5, h6⟩

/-- C6. In every run of `hello-triangle.c` whose startup succeeds and that returns: the one
buffer upload carries 36 bytes, the coordinates of the three vertices (-0.5,-0.5,0),
(0.5,-0.5,0), (0,0.5,0); the only attribute slot enabled is 0 and the only layout declared
is slot 0 with 3 float components, not normalized, stride 3 floats, offset 0; and the
trace is the setup, then one segment per executed frame, each opened by a loop check,
then the last loop check and `glfwTerminate`, where every frame is the two clear calls,
calls that are neither draws nor loop checks, then the draw of triangles from vertex 0
with count 3, then the buffer swap. -/
theorem hello_triangle_upload_layout_and_frames (e : Env) (r : Run)
    (hs : ¬ startup_fails e) (hr : HelloTriangle.main e = some r) :
    uploads r.calls = [(3 * (3 * sizeof_float), [-0.5, -0.5, 0] ++ [0.5, -0.5, 0] ++ [0, 0.5, 0])]
    ∧ enabled r.calls = [0]
    ∧ layouts r.calls = [(0, 3, Sym.GL_FLOAT, false, 3 * sizeof_float, 0)]
    ∧ ∃ (setup : List Call) (bodies : List (List Call)),
        r.calls = setup
          ++ bodies.flatMap (fun b => Call.glfwWindowShouldClose e.win :: b)
          ++ [Call.glfwWindowShouldClose e.win, Call.glfwTerminate]
        ∧ draws setup = [] ∧ loop_checks setup = []
        ∧ bodies.length = (executed e.frames).length
        ∧ ∀ b ∈ bodies, ∃ mid,
            b = [Call.glClearColor 0.2 0.3 0.3 1.0, Call.glClear Sym.GL_COLOR_BUFFER_BIT] ++ mid
                ++ [Call.glDrawArrays Sym.GL_TRIANGLES 0 3, Call.glfwSwapBuffers e.win]
            ∧ draws mid = [] ∧ loop_checks mid = [] := by
  have e1 := hello_main_eq e hs
  rw [hr] at e1
  split at e1
  · cases e1
    refine ⟨?_, ?_, ?_, ?_⟩
    · have h1 := uploads_setup_hello e
      have h2 := hello_uploads_loop e.win (executed e.frames)
      simp only [uploads] at h1 h2 ⊢
      simp only [List.filterMap_append, h1, h2]
      norm_num [Call.upload?, HelloTriangle.vertices, sizeof_float]
    · have h1 := enabled_setup_hello e
      have h2 := hello_enabled_loop e.win (executed e.frames)
      simp only [enabled] at h1 h2 ⊢
      simp only [List.filterMap_append, h1, h2]
      simp [Call.enable?]
    · have h1 := layouts_setup_hello e
      have h2 := hello_layouts_loop e.win (executed e.frames)
      simp only [layouts] at h1 h2 ⊢
      simp only [List.filterMap_append, h1, h2]
      simp [Call.layout?]
    · refine ⟨HelloTriangle.setup e,
        (executed e.frames).map (fun h => (HelloTriangle.frame_body e.win h false).1),
        ?_, draws_setup_hello e, loop_checks_setup_hello e, by simp, ?_⟩
      · rw [← flatMap_cons_map]
        simp
      · intro b hb
        obtain ⟨h, _, rfl⟩ := List.mem_map.mp hb
        exact hello_frame_body_shape e.win h false
  · cases e1

/-- Witness for C6: the demonstration run of `hello-triangle.c` returns, enables slot 0
only and draws three vertices in each of its two frames. -/
theorem hello_triangle_witness :
    ∃ r, HelloTriangle.main demo_env = some r ∧ enabled r.calls = [0]
      ∧ layouts r.calls = [(0, 3, Sym.GL_FLOAT, false, 3 * sizeof_float, 0)] := by
  obtain ⟨r, hr⟩ := hello_main_returns demo_env demo_starts demo_leaves
  have h := hello_triangle_upload_layout_and_frames demo_env r demo_starts hr
  exact ⟨r, hr, h.2.1, h.2.2.1⟩

/-- C2 (the code differs). In the demonstration run of `shaders.c` the host reports
elapsed time 1 in the first frame and 2 in the second, and `time_value` starts with the
indeterminate content 7.  The green channel passed to `glUniform4f` is `sin 7 / 2 + 0.5`
in the first frame and `sin 1 / 2 + 0.5` in the second: each frame uses the content
`time_value` had before that frame read the elapsed time. -/
theorem shaders_green_uses_previous_time (sin : ℚ → ℚ) :
    ∃ r, Shaders.main sin demo_env = some r
      ∧ uniform_sets r.calls = [(-1, (sin 7 / 2.0) + 0.5), (-1, (sin 1 / 2.0) + 0.5)] := by
  obtain ⟨r, hr⟩ := shaders_main_returns sin demo_env demo_starts demo_leaves
  refine ⟨r, hr, ?_⟩
  rw [(shaders_main_observed sin demo_env r demo_starts hr).2.2.2.2, executed_demo]
  rfl

/-- C3 (the code differs). In the demonstration run of `shaders.c` the buffer upload
carries 72 bytes and both layouts declare a stride of 24 bytes, so the buffer holds
72 / 24 = 3 vertices; each of the two frames draws with first vertex 0 and count 6, and
6 * 24 exceeds the 72 uploaded bytes. -/
theorem shaders_draw_count_exceeds_upload (sin : ℚ → ℚ) :
    ∃ r, Shaders.main sin demo_env = some r
      ∧ (uploads r.calls).map (fun u => u.1) = [72]
      ∧ (layouts r.calls).map (fun l => l.2.2.2.2.1) = [24, 24]
      ∧ draws r.calls = [(Sym.GL_TRIANGLES, 0, 6), (Sym.GL_TRIANGLES, 0, 6)]
      ∧ 72 / 24 = 3 ∧ 72 < 6 * 24 := by
  obtain ⟨r, hr⟩ := shaders_main_returns sin demo_env demo_starts demo_leaves
  have h := shaders_main_observed sin demo_env r demo_starts hr
  refine ⟨r, hr, ?_, ?_, ?_, by decide, by decide⟩
  · rw [h.1]
    rfl
  · rw [h.2.2.1]
    rfl
  · rw [h.2.2.2.1, executed_demo]
    rfl

/-- C5 as stated fails: in the demonstration run of `shaders.c` the one buffer upload
carries 72 bytes and 18 floats, which is three vertices of 6 floats, not six. -/
theorem shaders_upload_is_not_six_vertices :
    ∃ r, Shaders.main (fun _ => 0) demo_env = some r
      ∧ (uploads r.calls).map (fun u => (u.1, u.2.length)) = [(72, 3 * 6)]
      ∧ ¬ (uploads r.calls).map (fun u => u.2.length) = [6 * 6] := by
  obtain ⟨r, hr⟩ := shaders_main_returns (fun _ => 0) demo_env demo_starts demo_leaves
  have h := shaders_main_observed (fun _ => 0) demo_env r demo_starts hr
  refine ⟨r, hr, ?_, ?_⟩
  · rw [h.1]
    rfl
  · rw [h.1]
    simp [Shaders.vertices]

/-- C5, amended. In every run of `shaders.c` whose startup succeeds and that returns: the
one buffer upload carries the three vertices of 6 floats each (position, then colour);
exactly slots 0 and 1 are enabled; slot 0 is declared with 3 float components, stride
6 floats, offset 0 and slot 1 with 3 float components, stride 6 floats, offset 3 floats,
so the two attributes do not overlap and both end inside one stride; and the trace is
the setup, one segment per executed frame, each opened by a loop check, the last loop
check and `glfwTerminate`, where every frame holds exactly one draw call and its mode is
triangles. -/
theorem shaders_upload_layout_and_frames (sin : ℚ → ℚ) (e : Env) (r : Run)
    (hs : ¬ startup_fails e) (hr : Shaders.main sin e = some r) :
    uploads r.calls =
      [(3 * (6 * sizeof_float),
        [0.5, -0.5, 0, 1, 0, 0] ++ [-0.5, -0.5, 0, 0, 1, 0] ++ [0, 0.5, 0, 0, 0, 1])]
    ∧ enabled r.calls = [0, 1]
    ∧ layouts r.calls =
        [(0, 3, Sym.GL_FLOAT, false, 6 * sizeof_float, 0),
         (1, 3, Sym.GL_FLOAT, false, 6 * sizeof_float, 3 * sizeof_float)]
    ∧ 0 + 3 * sizeof_float ≤ 3 * sizeof_float
    ∧ 3 * sizeof_float + 3 * sizeof_float ≤ 6 * sizeof_float
    ∧ ∃ (setup : List Call) (bodies : List (List Call)),
        r.calls = setup
          ++ bodies.flatMap (fun b => Call.glfwWindowShouldClose e.win :: b)
          ++ [Call.glfwWindowShouldClose e.win, Call.glfwTerminate]
        ∧ draws setup = [] ∧ loop_checks setup = []
        ∧ bodies.length = (executed e.frames).length
        ∧ ∀ b ∈ bodies, loop_checks b = []
            ∧ (draws b).map (fun d => d.1) = [Sym.GL_TRIANGLES] := by
  have h := shaders_main_observed sin e r hs hr
  refine ⟨?_, h.2.1, h.2.2.1, by decide, by decide, ?_⟩
  · rw [h.1]
    norm_num [Shaders.vertices, sizeof_float]
  · have e1 := shaders_main_eq sin e hs
    rw [hr] at e1
    split at e1
    · cases e1
      refine ⟨Shaders.setup e,
        Shaders.bodies sin e.win e.vertex_color_location e.time_value (executed e.frames),
        by simp, draws_setup_shaders e, loop_checks_setup_shaders e,
        shaders_length_bodies _ _ _ _ _, ?_⟩
      exact shaders_bodies_shape sin e.win e.vertex_color_location (executed e.frames)
        e.time_value
    · cases e1

/-- Witness for C5: the demonstration run of `shaders.c` returns and enables slots 0
and 1. -/
theorem shaders_layout_witness :
    ∃ r, Shaders.main (fun _ => 0) demo_env = some r ∧ enabled r.calls = [0, 1] := by
  obtain ⟨r, hr⟩ := shaders_main_returns (fun _ => 0) demo_env demo_starts demo_leaves
  exact ⟨r, hr, (shaders_upload_layout_and_frames (fun _ => 0) demo_env r demo_starts hr).2.1⟩

/-- C9. For `check_shader_compilation_failure` and `check_shader_linking_failure` (the same
text in both files): text is written to `stderr` if and only if the status value read
back is 0; when it is not 0 nothing is written and the only call issued is the status
query, so the info log is not retrieved.  Hence a run of either program in which both
units compile and the program links, and startup succeeds, writes nothing to `stderr`. -/
theorem check_writes_iff_status_false (sin : ℚ → ℚ) (e : Env) (obj : Nat)
    (status : Option Int) (log : Option (List Char)) :
    (((check_shader_compilation_failure obj status log).2.flatten ≠ [] ↔ status_false status)
      ∧ (¬ status_false status →
          (check_shader_compilation_failure obj status log).2 = []
          ∧ (check_shader_compilation_failure obj status log).1
              = [Call.glGetShaderiv obj Sym.GL_COMPILE_STATUS]))
    ∧ (((check_shader_linking_failure obj status log).2.flatten ≠ [] ↔ status_false status)
      ∧ (¬ status_false status →
          (check_shader_linking_failure obj status log).2 = []
          ∧ (check_shader_linking_failure obj status log).1
              = [Call.glGetProgramiv obj Sym.GL_LINK_STATUS]))
    ∧ (¬ startup_fails e → ¬ status_false e.vertex_status → ¬ status_false e.fragment_status →
        ¬ status_false e.link_status →
        (∀ r, HelloTriangle.main e = some r → r.err = [])
        ∧ (∀ r, Shaders.main sin e = some r → r.err = [])) := by
  refine ⟨⟨?_, ?_⟩, ⟨?_, ?_⟩, ?_⟩
  · rw [check_compile_err]
    split <;> simp_all
  · intro h
    rw [check_compile_err, check_compile_calls]
    simp [h]
  · rw [check_link_err]
    split <;> simp_all
  · intro h
    rw [check_link_err, check_link_calls]
    simp [h]
  · intro hs hv hf hl
    constructor
    · intro r hr
      have e1 := hello_main_eq e hs
      rw [hr] at e1
      split at e1
      · cases e1
        simp [diagnostics, hv, hf, hl]
      · cases e1
    · intro r hr
      have e1 := shaders_main_eq sin e hs
      rw [hr] at e1
      split at e1
      · cases e1
        simp [diagnostics, hv, hf, hl]
      · cases e1

/-- Witness for C9: with every status 1 the demonstration run of `hello-triangle.c`
writes nothing to `stderr`. -/
theorem check_writes_witness :
    ∃ r, HelloTriangle.main demo_env.allOk = some r ∧ r.err = [] := by
  obtain ⟨r, hr⟩ := hello_main_returns demo_env.allOk (by decide) (by decide)
  exact ⟨r, hr,
    ((check_writes_iff_status_false (fun _ => 0) demo_env.allOk 1 (some 1) none).2.2
      (by decide) (by decide) (by decide) (by decide)).1 r hr⟩

/-- C10 as stated fails.  With status 0 and an empty driver log, the log string that
`check_shader_compilation_failure` writes after its heading is empty.  With status 0 and
a driver log of 600 characters, the text `check_shader_linking_failure` writes, heading
included, is 525 characters long, more than 511. -/
theorem reported_log_empty_or_text_over_511 :
    (check_shader_compilation_failure 1 (some 0) (some [])).2 = ["COMPILING ERROR:".toList, []]
    ∧ (check_shader_linking_failure 3 (some 0) (some (List.replicate 600 'x'))).2.flatten.length
        = 525
    ∧ ¬ (525 ≤ 511) := by
  refine ⟨?_, ?_, by decide⟩
  · rw [check_compile_err, if_pos (by decide), cstr_glGetInfoLog]
    rfl
  · rw [check_link_err, if_pos (by decide), cstr_glGetInfoLog]
    have hm : min 511 600 = 511 := by decide
    have hx : cstr (List.take 511 (List.replicate 600 'x')) = List.replicate 511 'x' := by
      rw [List.take_replicate, hm, cstr, List.takeWhile_eq_self_iff]
      intro c hc
      rw [List.eq_of_mem_replicate hc]
      decide
    have hl : "LINKING ERROR:".toList.length = 14 := by decide
    simp only [hx, List.flatten_cons, List.flatten_nil, List.append_nil, List.length_append,
      List.length_replicate, hl]

/-- C10, amended. For every status value 0 and whatever log the driver holds, each check
function writes two strings: its heading and the log string read back from the 512-byte
buffer.  That log string is at most 511 characters long; it is the C string of the first
511 characters of the driver log, or a newline when the driver rejects the retrieval;
it is non-empty whenever the driver log is a non-empty C string; and the text written as
a whole is non-empty. -/
theorem reported_log_at_most_511 (obj : Nat) (status : Option Int) (log : Option (List Char))
    (hst : status_false status) :
    (∃ diag, (check_shader_compilation_failure obj status log).2
          = ["COMPILING ERROR:".toList, diag]
        ∧ diag.length ≤ 511
        ∧ (log = none → diag = ['\n'])
        ∧ (∀ l, log = some l → diag = cstr (l.take 511) ∧ (cstr l ≠ [] → diag ≠ []))
        ∧ (check_shader_compilation_failure obj status log).2.flatten ≠ [])
    ∧ (∃ diag, (check_shader_linking_failure obj status log).2
          = ["LINKING ERROR:".toList, diag]
        ∧ diag.length ≤ 511
        ∧ (log = none → diag = ['\n'])
        ∧ (∀ l, log = some l → diag = cstr (l.take 511) ∧ (cstr l ≠ [] → diag ≠ []))
        ∧ (check_shader_linking_failure obj status log).2.flatten ≠ []) := by
  constructor
  · refine ⟨cstr (glGetInfoLog 512 log info_buffer), ?_, cstr_glGetInfoLog_length log, ?_, ?_, ?_⟩
    · rw [check_compile_err, if_pos hst]
    · intro h
      rw [h, cstr_glGetInfoLog]
    · intro l h
      rw [h, cstr_glGetInfoLog]
      exact ⟨rfl, cstr_take_ne_nil l⟩
    · rw [check_compile_err, if_pos hst]
      simp
  · refine ⟨cstr (glGetInfoLog 512 log info_buffer), ?_, cstr_glGetInfoLog_length log, ?_, ?_, ?_⟩
    · rw [check_link_err, if_pos hst]
    · intro h
      rw [h, cstr_glGetInfoLog]
    · intro l h
      rw [h, cstr_glGetInfoLog]
      exact ⟨rfl, cstr_take_ne_nil l⟩
    · rw [check_link_err, if_pos hst]
      simp

/-- Witness for C10: for the failed fragment unit of the demonstration run the reported
log string is at most 511 characters long. -/
theorem reported_log_witness :
    ∃ diag, (check_shader_compilation_failure 2 (some 0) demo_env.fragment_log).2
        = ["COMPILING ERROR:".toList, diag] ∧ diag.length ≤ 511 := by
  obtain ⟨diag, h1, h2, _⟩ :=
    (reported_log_at_most_511 2 (some 0) demo_env.fragment_log (by decide)).1
  exact ⟨diag, h1, h2⟩

/-- C8. Either program, when startup succeeds, returns once a frame raises the close flag,
and in every returning run of either program whose startup succeeded the trace is:
calls with no draw, no uniform-location query and no loop check; then create program,
attach vertex unit, attach fragment unit, link, query link status, the log retrieval
when the status is 0, delete vertex unit, delete fragment unit, use program; then the
layout calls; then the loop, opened by its first check.  In `shaders.c` the layout calls
end with the uniform-location query, it is the only such query of the run, and every
`glUniform4f` of the run passes the location that query returned. -/
theorem link_phase_order (sin : ℚ → ℚ) (e : Env) (hs : ¬ startup_fails e) :
    (e.frames.any HostFrame.raises = true → ∃ r, HelloTriangle.main e = some r)
    ∧ (e.frames.any HostFrame.raises = true → ∃ r, Shaders.main sin e = some r)
    ∧ (∀ r, HelloTriangle.main e = some r →
      ∃ start rest, r.calls = start
          ++ ([Call.glCreateProgram,
              Call.glAttachShader e.shader_program e.vertex_shader,
              Call.glAttachShader e.shader_program e.fragment_shader,
              Call.glLinkProgram e.shader_program,
              Call.glGetProgramiv e.shader_program Sym.GL_LINK_STATUS]
            ++ (if status_false e.link_status then
                  [Call.glGetProgramInfoLog e.shader_program 512] else [])
            ++ [Call.glDeleteShader e.vertex_shader,
                Call.glDeleteShader e.fragment_shader,
                Call.glUseProgram e.shader_program])
          ++ [Call.glVertexAttribPointer 0 3 Sym.GL_FLOAT false (3 * sizeof_float) 0,
              Call.glEnableVertexAttribArray 0]
          ++ Call.glfwWindowShouldClose e.win :: rest
        ∧ draws start = [] ∧ uniform_queries start = [] ∧ loop_checks start = []
        ∧ draws rest ≠ [])
    ∧ (∀ r, Shaders.main sin e = some r →
      ∃ start rest, r.calls = start
          ++ ([Call.glCreateProgram,
              Call.glAttachShader e.shader_program e.vertex_shader,
              Call.glAttachShader e.shader_program e.fragment_shader,
              Call.glLinkProgram e.shader_program,
              Call.glGetProgramiv e.shader_program Sym.GL_LINK_STATUS]
            ++ (if status_false e.link_status then
                  [Call.glGetProgramInfoLog e.shader_program 512] else [])
            ++ [Call.glDeleteShader e.vertex_shader,
                Call.glDeleteShader e.fragment_shader,
                Call.glUseProgram e.shader_program])
          ++ [Call.glVertexAttribPointer 0 3 Sym.GL_FLOAT false (6 * sizeof_float) 0,
              Call.glEnableVertexAttribArray 0,
              Call.glVertexAttribPointer 1 3 Sym.GL_FLOAT false (6 * sizeof_float)
                (3 * sizeof_float),
              Call.glEnableVertexAttribArray 1,
              Call.glGetUniformLocation e.shader_program "ourColor"]
          ++ Call.glfwWindowShouldClose e.win :: rest
        ∧ draws start = [] ∧ uniform_queries start = [] ∧ loop_checks start = []
        ∧ draws rest ≠ []
        ∧ uniform_queries r.calls = [(e.shader_program, "ourColor")]
        ∧ uniform_sets r.calls ≠ []
        ∧ ∀ u ∈ uniform_sets r.calls, u.1 = e.vertex_color_location) := by
  refine ⟨hello_main_returns e hs, shaders_main_returns sin e hs, ?_, ?_⟩
  · intro r hr
    have e1 := hello_main_eq e hs
    rw [hr] at e1
    split at e1
    · rename_i ha
      cases e1
      obtain ⟨h0, tl, hx⟩ := executed_eq_cons e.frames ha
      have hq := hello_compile_phase_quiet e
      refine ⟨HelloTriangle.compile_phase e,
        (HelloTriangle.frame_body e.win h0 false).1
          ++ tl.flatMap (fun h =>
              Call.glfwWindowShouldClose e.win :: (HelloTriangle.frame_body e.win h false).1)
          ++ [Call.glfwWindowShouldClose e.win, Call.glfwTerminate],
        ?_, hq.1, hq.2.1, hq.2.2, ?_⟩
      · rw [hx, hello_setup_split]
        simp [link_phase]
      · have hd := hello_draws_frame_body e.win h0 false
        simp only [draws] at hd ⊢
        simp [List.filterMap_append, hd]
    · cases e1
  · intro r hr
    have hobs := shaders_main_observed sin e r hs hr
    have e1 := shaders_main_eq sin e hs
    rw [hr] at e1
    split at e1
    · rename_i ha
      cases e1
      obtain ⟨h0, tl, hx⟩ := executed_eq_cons e.frames ha
      have hq := shaders_compile_phase_quiet e
      refine ⟨Shaders.compile_phase e,
        (Shaders.frame_body sin e.win e.vertex_color_location h0 false e.time_value).1
          ++ (Shaders.bodies sin e.win e.vertex_color_location h0.time tl).flatMap (fun b =>
              Call.glfwWindowShouldClose e.win :: b)
          ++ [Call.glfwWindowShouldClose e.win, Call.glfwTerminate],
        ?_, hq.1, hq.2.1, hq.2.2, ?_, ?_, ?_, ?_⟩
      · rw [hx, shaders_setup_split]
        simp [link_phase, Shaders.bodies]
      · have hd := shaders_draws_frame_body sin e.win e.vertex_color_location h0 false
          e.time_value
        simp only [draws] at hd ⊢
        simp [List.filterMap_append, hd]
      · have h2 := shaders_uniform_queries_loop sin e.win e.vertex_color_location
          (executed e.frames) e.time_value
        have h3 := link_phase_quiet e
        simp only [uniform_queries] at h2 h3 hq ⊢
        rw [shaders_setup_split]
        simp only [List.filterMap_append, h2, h3.2.1, hq.2.1]
        simp [Call.uniformLocation?]
      · rw [hobs.2.2.2.2, hx]
        simp
      · intro u hu
        rw [hobs.2.2.2.2] at hu
        obtain ⟨ht, _, rfl⟩ := List.mem_map.mp hu
        rfl
    · cases e1

/-- Witness for C8: both programs return on the demonstration run; in the run of
`hello-triangle.c` the link phase is followed by the layout calls, the first loop check
and a draw, with no draw before it, and in the run of `shaders.c` the uniform location is queried once and both uniform sets pass the location that query
returned. -/
theorem link_phase_witness :
    (∃ r start rest, HelloTriangle.main demo_env = some r
      ∧ r.calls = start
          ++ ([Call.glCreateProgram,
              Call.glAttachShader 3 1,
              Call.glAttachShader 3 2,
              Call.glLinkProgram 3,
              Call.glGetProgramiv 3 Sym.GL_LINK_STATUS]
            ++ (if status_false demo_env.link_status then
                  [Call.glGetProgramInfoLog 3 512] else [])
            ++ [Call.glDeleteShader 1,
                Call.glDeleteShader 2,
                Call.glUseProgram 3])
          ++ [Call.glVertexAttribPointer 0 3 Sym.GL_FLOAT false (3 * sizeof_float) 0,
              Call.glEnableVertexAttribArray 0]
          ++ Call.glfwWindowShouldClose 1 :: rest
      ∧ draws start = [] ∧ draws rest ≠ [])
    ∧ (∃ r, Shaders.main (fun _ => 0) demo_env = some r
      ∧ uniform_queries r.calls = [(3, "ourColor")]
      ∧ ∀ u ∈ uniform_sets r.calls, u.1 = -1) := by
  have h := link_phase_order (fun _ => 0) demo_env demo_starts
  obtain ⟨r1, hr1⟩ := h.1 demo_leaves
  obtain ⟨r2, hr2⟩ := h.2.1 demo_leaves
  obtain ⟨start, rest, hc, hd, _, _, hn⟩ := h.2.2.1 r1 hr1
  obtain ⟨_, _, _, _, _, _, _, h6, _, h8⟩ := h.2.2.2 r2 hr2
  exact ⟨⟨r1, start, rest, hr1, hc, hd, hn⟩, ⟨r2, hr2, h6, h8⟩⟩

/-- C7. For both programs, every run whose startup succeeds and every combination of
compile and link statuses: the run returns exactly when the run with all three statuses
1 returns, with the same exit code and, once the info-log retrievals are removed, the
same calls; it does return once a frame raises the close flag; a returning run has exit
code 0, has written to `stderr` exactly the
diagnostics of the failed checks, and has attached both units, linked, activated the
program, passed the first loop check and drawn, in this order. -/
theorem compile_or_link_failure_is_not_fatal (sin : ℚ → ℚ) (e : Env)
    (hs : ¬ startup_fails e) :
    ((HelloTriangle.main e).map (fun r => (r.calls.filter (fun c => !c.isInfoLog), r.code))
        = (HelloTriangle.main e.allOk).map (fun r => (r.calls, r.code))
      ∧ (e.frames.any HostFrame.raises = true → ∃ r, HelloTriangle.main e = some r)
      ∧ ∀ r, HelloTriangle.main e = some r →
          r.code = 0 ∧ r.err = diagnostics e
          ∧ List.Sublist
              [Call.glAttachShader e.shader_program e.vertex_shader,
               Call.glAttachShader e.shader_program e.fragment_shader,
               Call.glLinkProgram e.shader_program,
               Call.glUseProgram e.shader_program,
               Call.glfwWindowShouldClose e.win,
               Call.glDrawArrays Sym.GL_TRIANGLES 0 3] r.calls)
    ∧ ((Shaders.main sin e).map (fun r => (r.calls.filter (fun c => !c.isInfoLog), r.code))
        = (Shaders.main sin e.allOk).map (fun r => (r.calls, r.code))
      ∧ (e.frames.any HostFrame.raises = true → ∃ r, Shaders.main sin e = some r)
      ∧ ∀ r, Shaders.main sin e = some r →
          r.code = 0 ∧ r.err = diagnostics e
          ∧ List.Sublist
              [Call.glAttachShader e.shader_program e.vertex_shader,
               Call.glAttachShader e.shader_program e.fragment_shader,
               Call.glLinkProgram e.shader_program,
               Call.glUseProgram e.shader_program,
               Call.glfwWindowShouldClose e.win,
               Call.glDrawArrays Sym.GL_TRIANGLES 0 6] r.calls) := by
  have hs2 : ¬ startup_fails e.allOk := fun h => hs ((startup_fails_allOk e).mp h)
  refine ⟨⟨?_, hello_main_returns e hs, ?_⟩, ⟨?_, shaders_main_returns sin e hs, ?_⟩⟩
  · rw [hello_main_eq e hs, hello_main_eq e.allOk hs2]
    have hfr : e.allOk.frames = e.frames := rfl
    have hw : e.allOk.win = e.win := rfl
    rw [hfr, hw]
    split
    · simp only [Option.map_some', List.filter_append, hello_loop_no_info_log,
        hello_setup_allOk]
      simp [Call.isInfoLog]
    · rfl
  · intro r hr
    have e1 := hello_main_eq e hs
    rw [hr] at e1
    split at e1
    · rename_i ha
      cases e1
      obtain ⟨h0, tl, hx⟩ := executed_eq_cons e.frames ha
      refine ⟨rfl, rfl, ?_⟩
      rw [hx, hello_setup_split]
      simp only [List.flatMap_cons, hello_frame_body_calls, link_phase, List.cons_append,
        List.nil_append, List.append_assoc]
      repeat (first
        | exact List.nil_sublist _
        | apply List.Sublist.cons₂
        | apply List.Sublist.cons
        | apply List.sublist_append_of_sublist_right)
    · cases e1
  · rw [shaders_main_eq sin e hs, shaders_main_eq sin e.allOk hs2]
    have hfr : e.allOk.frames = e.frames := rfl
    have hw : e.allOk.win = e.win := rfl
    have hl : e.allOk.vertex_color_location = e.vertex_color_location := rfl
    have ht : e.allOk.time_value = e.time_value := rfl
    rw [hfr, hw, hl, ht]
    split
    · simp only [Option.map_some', List.filter_append, shaders_loop_no_info_log,
        shaders_setup_allOk]
      simp [Call.isInfoLog]
    · rfl
  · intro r hr
    have e1 := shaders_main_eq sin e hs
    rw [hr] at e1
    split at e1
    · rename_i ha
      cases e1
      obtain ⟨h0, tl, hx⟩ := executed_eq_cons e.frames ha
      refine ⟨rfl, rfl, ?_⟩
      rw [hx, shaders_setup_split]
      simp only [Shaders.bodies, List.flatMap_cons, shaders_frame_body_calls, link_phase,
        List.cons_append, List.nil_append, List.append_assoc]
      repeat (first
        | exact List.nil_sublist _
        | apply List.Sublist.cons₂
        | apply List.Sublist.cons
        | apply List.sublist_append_of_sublist_right)
    · cases e1

/-- Witness for C7: the demonstration run, whose fragment unit fails to compile and whose
link fails, returns 0 from `hello-triangle.c` after writing the two diagnostics. -/
theorem compile_or_link_failure_witness :
    ∃ r, HelloTriangle.main demo_env = some r ∧ r.code = 0
      ∧ r.err = diagnostics demo_env := by
  obtain ⟨r, hr⟩ := hello_main_returns demo_env demo_starts demo_leaves
  have h :=
    (compile_or_link_failure_is_not_fatal (fun _ => 0) demo_env demo_starts).1.2.2 r hr
  exact ⟨r, hr, h.1, h.2.1⟩

end OpenGLTutorial
